import Mathlib

/-!
Verification of the m68k assembler / disassembler / emulator toolchain.

The definitions below are a shallow embedding of the Go sources:
machine integers are `Nat` with explicit truncation (`u8`, `u16`, `u32`),
signed views are `Int` (`toI8`, `toI16`, `toI32`), Go's `[]byte` and
`[]uint16` are `List Nat`, Go strings are `String`, Go maps are
association lists, and fallible functions return `Except String`.
Reads from the machine-code byte stream that Go performs by slice
indexing (and that would panic when out of range) are modelled with
`Option`-returning primitives, so that totality of the decoder is a
theorem rather than an artefact of the embedding.
-/

/-! ## Machine-integer helpers -/

/-- Truncate to an unsigned 8-bit value (Go `byte(x)` on unsigned input). -/
def u8 (n : Nat) : Nat := n % 256

/-- Truncate to an unsigned 16-bit value (Go `uint16(x)` on unsigned input). -/
def u16 (n : Nat) : Nat := n % 65536

/-- Truncate to an unsigned 32-bit value (Go `uint32(x)` on unsigned input). -/
def u32 (n : Nat) : Nat := n % 4294967296

/-- Go `byte(v)` for a (possibly negative) `int64` value: two's complement. -/
def iu8 (v : Int) : Nat := (v % 256).toNat

/-- Go `uint16(v)` for a (possibly negative) `int64` value: two's complement. -/
def iu16 (v : Int) : Nat := (v % 65536).toNat

/-- Go `uint32(v)` for a (possibly negative) `int64` value: two's complement. -/
def iu32 (v : Int) : Nat := (v % 4294967296).toNat

/-- Go `int8(x)`: reinterpret the low 8 bits as a signed value. -/
def toI8 (n : Nat) : Int := let m := n % 256; if m < 128 then (m : Int) else (m : Int) - 256

/-- Go `int16(x)`: reinterpret the low 16 bits as a signed value. -/
def toI16 (n : Nat) : Int := let m := n % 65536; if m < 32768 then (m : Int) else (m : Int) - 65536

/-- Go `int32(x)`: reinterpret the low 32 bits as a signed value. -/
def toI32 (n : Nat) : Int :=
  let m := n % 4294967296
  if m < 2147483648 then (m : Int) else (m : Int) - 4294967296

/-- Go `^x` (bitwise complement) on `uint16`. -/
def compl16 (n : Nat) : Nat := 65535 ^^^ n

/-- Go `^x` (bitwise complement) on `uint32`. -/
def compl32 (n : Nat) : Nat := 4294967295 ^^^ n

/-- Go `a &^ b` (AND NOT) on `uint16` values. -/
def andNot16 (a b : Nat) : Nat := a &&& compl16 b

/-! ## String formatting helpers (the `fmt` verbs the sources use) -/

/-- One lowercase hexadecimal digit. -/
def hexDigit (n : Nat) : Char :=
  if n < 10 then Char.ofNat (48 + n) else Char.ofNat (87 + n)

/-- Lowercase hexadecimal digits of `n` (Go `%x`), most significant first.
`Nat.toDigits` produces exactly Go's lowercase digits. -/
def hexChars (n : Nat) : List Char := Nat.toDigits 16 n

/-- Go `fmt.Sprintf "%x"`. -/
def hexStr (n : Nat) : String := String.mk (hexChars n)

/-- Left-pad a character list with `'0'` up to width `w`. -/
def padZeros (w : Nat) (cs : List Char) : List Char :=
  List.replicate (w - cs.length) '0' ++ cs

/-- Go `fmt.Sprintf "%04X"`: uppercase hex, zero-padded to at least 4 digits. -/
def hex4Upper (n : Nat) : String := String.mk ((padZeros 4 (hexChars n)).map Char.toUpper)

/-- Go `fmt.Sprintf "%04x"`: lowercase hex, zero-padded to at least 4 digits. -/
def hex4Lower (n : Nat) : String := String.mk (padZeros 4 (hexChars n))

/-- Go `fmt.Sprintf "%02x"`: lowercase hex, zero-padded to at least 2 digits. -/
def hex2Lower (n : Nat) : String := String.mk (padZeros 2 (hexChars n))

/-- Go `fmt.Sprintf "%d"` for unsigned values. -/
def natStr (n : Nat) : String := toString n

/-- Go `fmt.Sprintf "%d"` for signed values. -/
def intStr (v : Int) : String := toString v

/-- Go `fmt.Sprintf "%-8s"`: left-justify, pad with spaces to width 8. -/
def padRight8 (s : String) : String :=
  s ++ String.mk (List.replicate (8 - s.length) ' ')

/-! ## `cpu` package: sizes, opcodes, flags, serialisation -/

namespace cpu

/-- `cpu.Size`: data size of an instruction's operation. -/
inductive Size where
  | SizeInvalid
  | SizeByte
  | SizeWord
  | SizeLong
  | SizeShort
deriving DecidableEq

export Size (SizeInvalid SizeByte SizeWord SizeLong SizeShort)

-- Addressing mode constants (3-bit mode field).
def ModeData : Nat := 0
def ModeAddr : Nat := 1
def ModeAddrInd : Nat := 2
def ModeAddrPostInc : Nat := 3
def ModeAddrPreDec : Nat := 4
def ModeAddrDisp : Nat := 5
def ModeAddrIndex : Nat := 6
def ModeOther : Nat := 7

-- Submodes for ModeOther (register field).
def RegAbsShort : Nat := 0
def RegAbsLong : Nat := 1
def RegPCDisp : Nat := 2
def RegPCIndex : Nat := 3
def RegImmediate : Nat := 4

-- Derived addressing modes (assembler-side aliases).
def ModeAbsShort : Nat := 0
def ModeAbsLong : Nat := 1
def ModePCRelative : Nat := 2
def ModePCIndex : Nat := 3
def ModeImmediate : Nat := 4

-- Status register flag bits.
def SRC : Nat := 1
def SRV : Nat := 2
def SRZ : Nat := 4
def SRN : Nat := 8
def SRX : Nat := 16

-- Opcode constants used by the embedded functions.
def OPANDconst : Nat := 0xC000
def OPORconst : Nat := 0x8000
def OPEOR : Nat := 0xB100
def OPANDI : Nat := 0x0200
def OPORI : Nat := 0x0000
def OPEORI : Nat := 0x0A00
def OPANDItoCCR : Nat := 0x023C
def OPORItoCCR : Nat := 0x003C
def OPEORItoCCR : Nat := 0x0A3C
def OPANDItoSR : Nat := 0x027C
def OPORItoSR : Nat := 0x007C
def OPEORItoSR : Nat := 0x0A7C
def OPNOT : Nat := 0x4600
def OPCLR : Nat := 0x4200
def OPTST : Nat := 0x4A00
def OPNEG : Nat := 0x4400
def OPNEGX : Nat := 0x4000
def OPNBCD : Nat := 0x4800
def OPEXT : Nat := 0x4800
def OPSWAP : Nat := 0x4840
def OPBitManipulationBase : Nat := 0x0100
def OPADD : Nat := 0xD000
def OPADDQ : Nat := 0x5000
def OPADDI : Nat := 0x0600
def OPADDX : Nat := 0xD100
def OPSUB : Nat := 0x9000
def OPSUBQ : Nat := 0x5100
def OPSUBI : Nat := 0x0400
def OPSUBX : Nat := 0x9100
def OPMULS : Nat := 0xC1C0
def OPMULU : Nat := 0xC0C0
def OPDIVS : Nat := 0x81C0
def OPDIVU : Nat := 0x80C0
def OPCMPI : Nat := 0x0C00
def OPCHK : Nat := 0x4180
def OPShiftRotateBase : Nat := 0xE000
def OPMOVE : Nat := 0x0000
def OPMOVEQ : Nat := 0x7000
def OPMOVEFromSR : Nat := 0x40C0
def OPMOVEToSR : Nat := 0x46C0
def OPMOVEToCCR : Nat := 0x44C0
def OPMOVEFromUSP : Nat := 0x4E68
def OPMOVEToUSP : Nat := 0x4E60
def OPPEA : Nat := 0x4840
def OPLEA : Nat := 0x41C0
def OPLINK : Nat := 0x4E50
def OPUNLK : Nat := 0x4E58
def OPTRAP : Nat := 0x4E40
def OPTRAPV : Nat := 0x4E76
def OPRTE : Nat := 0x4E73
def OPSTOP : Nat := 0x4E72
def OPRESET : Nat := 0x4E70
def OPNOP : Nat := 0x4E71
def OPILLEGAL : Nat := 0x4AFC
def OPRTS : Nat := 0x4E75
def OPRTR : Nat := 0x4E77
def OPTAS : Nat := 0x4AC0
def OPEXG : Nat := 0xC100
def OPScc : Nat := 0x50C0
def OPDBcc : Nat := 0x50C8
def OPBRA : Nat := 0x6000
def OPBSR : Nat := 0x6100
def OPJMP : Nat := 0x4EC0
def OPJSR : Nat := 0x4E80

/-- `cpu.BranchOpcodes`: branch mnemonic → base opcode. -/
def BranchOpcodes : List (String × Nat) :=
  [("bra", OPBRA), ("bsr", OPBSR), ("bhi", 0x6200), ("bls", 0x6300),
   ("bcc", 0x6400), ("bcs", 0x6500), ("bne", 0x6600), ("beq", 0x6700),
   ("bvc", 0x6800), ("bvs", 0x6900), ("bpl", 0x6A00), ("bmi", 0x6B00),
   ("bge", 0x6C00), ("blt", 0x6D00), ("bgt", 0x6E00), ("ble", 0x6F00)]

/-- `cpu.ConditionCodes`: condition mnemonic → 4-bit code. -/
def ConditionCodes : List (String × Nat) :=
  [("t", 0x0), ("f", 0x1), ("hi", 0x2), ("ls", 0x3), ("cc", 0x4), ("cs", 0x5),
   ("ne", 0x6), ("eq", 0x7), ("vc", 0x8), ("vs", 0x9), ("pl", 0xA), ("mi", 0xB),
   ("ge", 0xC), ("lt", 0xD), ("gt", 0xE), ("le", 0xF)]

/-- `cpu.WordsToBytes`: serialise 16-bit words big-endian (high byte first). -/
def WordsToBytes (words : List Nat) : List Nat :=
  (words.map (fun w => [u8 (w >>> 8), u8 w])).flatten

/-- `cpu.BytesToWords`: read big-endian 16-bit words; an odd trailing byte is
padded with a zero low byte. -/
def BytesToWords : List Nat → List Nat
  | [] => []
  | [x] => [256 * x]
  | x :: y :: rest => (256 * x + y) :: BytesToWords rest

/-- `binary.LittleEndian.PutUint16` into a fresh 2-byte buffer: always writes
the low byte first, on every host. -/
def putUint16LE (x : Nat) : List Nat := [x % 256, (x >>> 8) % 256]

/-- `cpu.IsLittleEndianHost`: writes 1 with the little-endian serialiser and
tests the first buffer byte.  `binary.LittleEndian` is a fixed byte order, so
the first byte is 1 on every host and the function is constantly `true`. -/
def IsLittleEndianHost : Bool := (putUint16LE 1).headD 0 == 1

/-- The CPU state (`cpu.CPU`), restricted to the fields the embedded
instructions touch.  `D`/`A` are the 8 data and address registers. -/
structure CPU where
  D : List Nat
  A : List Nat
  PC : Nat
  SR : Nat
  Mem : List Nat
  Running : Bool
deriving DecidableEq

/-- Handler identities for `DecodedInstruction.Handler` (Go stores function
pointers; the dispatch in `Execute` is by this identity). -/
inductive Handler where
  | hMOVE
  | hMOVEA
  | hMOVEQ
  | hADDQ
  | hADD
deriving DecidableEq

/-- `cpu.DecodedInstruction` (decode.go, first draft). -/
structure DecodedInstruction where
  Handler : Option Handler := none
  Size : Size := SizeInvalid
  SrcMode : Nat := 0
  SrcReg : Nat := 0
  DstMode : Nat := 0
  DstReg : Nat := 0
  OpMode : Nat := 0
deriving DecidableEq

/-- `cpu.ReadU16`: big-endian 16-bit read from memory.  The Go code indexes
`c.Mem[addr:]` unguarded; the embedding is used only at in-range addresses. -/
def ReadU16 (c : CPU) (addr : Nat) : Nat :=
  256 * c.Mem.getD addr 0 + c.Mem.getD (addr + 1) 0

/-- `cpu.setNZ` (utility.go): clear N and Z, then set them from the signed
interpretation of `value` at width `size`. -/
def setNZ (c : CPU) (value : Nat) (size : Size) : CPU :=
  let sr := andNot16 c.SR (SRN ||| SRZ)
  let p : Bool × Bool :=
    match size with
    | SizeByte => (toI8 value == 0, toI8 value < 0)
    | SizeWord => (toI16 value == 0, toI16 value < 0)
    | SizeLong => (toI32 value == 0, toI32 value < 0)
    | _ => (false, false)
  let sr := if p.1 then sr ||| SRZ else sr
  let sr := if p.2 then sr ||| SRN else sr
  { c with SR := sr }

/-- `cpu.setFlagsArith` (utility.go): compute C, V, N, Z and X from an
arithmetic operation's source, destination and result at width `size`. -/
def setFlagsArith (c : CPU) (src dst result : Nat) (size : Size) : CPU :=
  let sr := andNot16 c.SR (SRX ||| SRN ||| SRZ ||| SRV ||| SRC)
  let masks : Nat × Nat :=
    match size with
    | SizeByte => (0x80, 0xFF)
    | SizeWord => (0x8000, 0xFFFF)
    | SizeLong => (0x80000000, 0xFFFFFFFF)
    | _ => (0, 0)
  let msbMask := masks.1
  let signMask := masks.2
  let s := src &&& msbMask
  let d := dst &&& msbMask
  let r := result &&& msbMask
  let sr := if result &&& signMask == 0 then sr ||| SRZ else sr
  let sr := if r != 0 then sr ||| SRN else sr
  let sr :=
    if ((s &&& d) ||| (compl32 r &&& s) ||| (compl32 r &&& d)) != 0 then
      (sr ||| SRC) ||| SRX
    else sr
  let sr := if s == d && s != r then sr ||| SRV else sr
  { c with SR := sr }

/-- `cpu.opMOVEQ` (move.go): sign-extend the 8-bit immediate into `D[dst]`,
clear V and C, and set N/Z from the long result. -/
def opMOVEQ (c : CPU) (inst : DecodedInstruction) : Except String CPU :=
  let data := toI8 (inst.SrcReg &&& 0xFF)
  let value := iu32 data
  let c := { c with D := c.D.set inst.DstReg value }
  let c := { c with SR := andNot16 c.SR (SRV ||| SRC) }
  Except.ok (setNZ c value SizeLong)

/-- `cpu.Decode` (decode.go, first draft): dispatch on the top nibble. -/
def Decode (opcode : Nat) : Except String DecodedInstruction :=
  let top := opcode >>> 12
  if top = 1 ∨ top = 2 ∨ top = 3 then
    let size :=
      match top &&& 3 with
      | 1 => SizeByte
      | 3 => SizeWord
      | 2 => SizeLong
      | _ => SizeInvalid
    let dstMode := (opcode >>> 6) &&& 7
    let inst : DecodedInstruction :=
      { Size := size
        DstMode := dstMode
        DstReg := (opcode >>> 9) &&& 7
        SrcMode := (opcode >>> 3) &&& 7
        SrcReg := opcode &&& 7
        Handler := if dstMode = ModeAddr then some Handler.hMOVEA else some Handler.hMOVE }
    Except.ok inst
  else if top = 5 then
    if opcode &&& 0x00C0 = 0x00C0 then
      Except.error ("unknown or unimplemented instruction: " ++ hex4Upper opcode)
    else
      let data0 := (opcode >>> 9) &&& 7
      let data := if data0 = 0 then 8 else data0
      let size :=
        match (opcode >>> 6) &&& 3 with
        | 0 => SizeByte
        | 1 => SizeWord
        | 2 => SizeLong
        | _ => SizeInvalid
      let inst : DecodedInstruction :=
        { SrcReg := data
          Size := size
          DstMode := (opcode >>> 3) &&& 7
          DstReg := opcode &&& 7
          Handler := if (opcode >>> 8) &&& 1 = 0 then some Handler.hADDQ else none }
      Except.ok inst
  else if top = 7 then
    Except.ok
      { Handler := some Handler.hMOVEQ
        Size := SizeLong
        DstReg := (opcode >>> 9) &&& 7
        SrcReg := opcode &&& 0xFF }
  else if top = 13 then
    let size :=
      match (opcode >>> 6) &&& 3 with
      | 0 => SizeByte
      | 1 => SizeWord
      | 2 => SizeLong
      | _ => SizeInvalid
    Except.ok
      { Handler := some Handler.hADD
        OpMode := opcode &&& 0x01C0
        DstReg := (opcode >>> 9) &&& 7
        SrcMode := (opcode >>> 3) &&& 7
        SrcReg := opcode &&& 7
        Size := size }
  else
    Except.error ("unknown or unimplemented instruction: " ++ hex4Upper opcode)

/-- `cpu.Execute` (instructions.go): fetch, advance PC, decode, dispatch.
Only the MOVEQ handler is modelled; the other handlers are outside the scope
of the claims under verification. -/
def Execute (c : CPU) : Except String CPU :=
  if !c.Running then Except.ok c
  else
    let opcode := ReadU16 c c.PC
    let c := { c with PC := u32 (c.PC + 2) }
    match Decode opcode with
    | Except.error e => Except.error ("decode failed: " ++ e)
    | Except.ok inst =>
      match inst.Handler with
      | none => Except.error ("no handler for opcode " ++ hex4Upper opcode)
      | some Handler.hMOVEQ => opMOVEQ c inst
      | some _ => Except.error "handler not modelled"

end cpu

/-! ## Go `strings` helpers used by the assembler's parser -/

/-- `strings.ToLower` (ASCII inputs). -/
def toLowerStr (s : String) : String := String.mk (s.data.map Char.toLower)

/-- ASCII whitespace test used by the trimming helpers. -/
def isSpaceGo (c : Char) : Bool := c == ' ' || c == '\t' || c == '\n' || c == '\r'

/-- `strings.TrimSpace` (ASCII whitespace), structurally recursive. -/
def trimStr (s : String) : String :=
  String.mk (((s.data.dropWhile isSpaceGo).reverse.dropWhile isSpaceGo).reverse)

/-- `strings.HasPrefix`, structurally recursive. -/
def strStartsWith (s p : String) : Bool := p.data.isPrefixOf s.data

/-- `strings.HasSuffix`, structurally recursive. -/
def strEndsWith (s p : String) : Bool := p.data.reverse.isPrefixOf s.data.reverse

/-- `strings.ContainsRune`, structurally recursive. -/
def strContainsCh (s : String) (c : Char) : Bool := s.data.contains c

/-- Splitter shared by `splitOnCh` and `fieldsStr`. -/
def splitPredAux (p : Char → Bool) : List Char → List Char → List String
  | [], cur => [String.mk cur.reverse]
  | x :: rest, cur =>
    if p x then String.mk cur.reverse :: splitPredAux p rest []
    else splitPredAux p rest (x :: cur)

/-- `strings.Split` at a one-character separator. -/
def splitOnCh (c : Char) (s : String) : List String :=
  splitPredAux (fun x => x == c) s.data []

/-- Replace CRLF line endings by LF (the only `strings.ReplaceAll` call
the assembler makes), structurally recursive. -/
def replaceCRLFgo : List Char → List Char
  | [] => []
  | '\r' :: '\n' :: rest => '\n' :: replaceCRLFgo rest
  | ch :: rest => ch :: replaceCRLFgo rest

/-- `strings.TrimPrefix`. -/
def trimPrefixStr (s p : String) : String :=
  if strStartsWith s p then s.drop p.length else s

/-- `strings.Fields`: split around runs of whitespace. -/
def fieldsStr (s : String) : List String :=
  (splitPredAux (fun c => c == ' ' || c == '\t') s.data []).filter (· ≠ "")

/-- `strings.EqualFold` (ASCII inputs). -/
def equalFold (a b : String) : Bool := toLowerStr a == toLowerStr b

/-- Association-list update, modelling Go `m[k] = v`. -/
def setAssoc {α : Type} (m : List (String × α)) (k : String) (v : α) : List (String × α) :=
  match m with
  | [] => [(k, v)]
  | (k', v') :: r => if k' == k then (k, v) :: r else (k', v') :: setAssoc r k v

/-! ## `assembler` package: data types -/

namespace assembler

/-- `assembler.RegLabel`: placeholder register for an unresolved label. -/
def RegLabel : Nat := 0xFE

/-- `assembler.RegStatus`: placeholder register for SR/CCR/USP. -/
def RegStatus : Nat := 0xFFFF

/-- `assembler.Mnemonic`. -/
structure Mnemonic where
  Value : String
  Size : cpu.Size
deriving DecidableEq

/-- `assembler.Operand`. -/
structure Operand where
  Mode : Nat := 0
  Register : Nat := 0
  ExtensionWords : List Nat := []
  Raw : String := ""
  Label : String := ""
deriving DecidableEq

/-- `Operand.IsImmediate`. -/
def Operand.IsImmediate (o : Operand) : Bool :=
  o.Mode == cpu.ModeOther && o.Register == cpu.RegImmediate

/-- `assembler.NodeType`. -/
inductive NodeType where
  | NodeInstruction
  | NodeLabel
  | NodeDirective
deriving DecidableEq

export NodeType (NodeInstruction NodeLabel NodeDirective)

/-- `assembler.Node` (`Type` is a reserved word in Lean, hence `Type'`). -/
structure Node where
  Type' : NodeType
  Label : String := ""
  Mnemonic : Mnemonic := ⟨"", cpu.SizeInvalid⟩
  Operands : List Operand := []
  Parts : List String := []
  Size : Nat := 0
deriving DecidableEq

/-- `assembler.Assembler`: symbol and label tables (`equ` symbols are
`int64`, label addresses `uint32`). -/
structure Assembler where
  symbols : List (String × Int) := []
  labels : List (String × Nat) := []
deriving DecidableEq

/-! ## Number parsing (`strconv.ParseInt` and `parseConstant`) -/

/-- Value of one digit character for a numeric base, if valid. -/
def digitVal (c : Char) (base : Nat) : Option Nat :=
  let v :=
    if '0' ≤ c ∧ c ≤ '9' then some (c.toNat - 48)
    else if 'a' ≤ c ∧ c ≤ 'z' then some (c.toNat - 87)
    else if 'A' ≤ c ∧ c ≤ 'Z' then some (c.toNat - 55)
    else none
  match v with
  | some d => if d < base then some d else none
  | none => none

/-- Digits-only part of `strconv.ParseInt`. -/
def parseDigits (cs : List Char) (base : Nat) : Option Nat :=
  cs.foldl
    (fun acc c =>
      match acc, digitVal c base with
      | some n, some d => some (n * base + d)
      | _, _ => none)
    (if cs.isEmpty then none else some 0)

/-- `strconv.ParseInt`: optional sign, then digits in the given base. -/
def parseIntGo (s : String) (base : Nat) : Except String Int :=
  let p : Bool × List Char :=
    match s.data with
    | '-' :: r => (true, r)
    | '+' :: r => (false, r)
    | r => (false, r)
  match parseDigits p.2 base with
  | some n => Except.ok (if p.1 then -(n : Int) else (n : Int))
  | none => Except.error ("invalid number format: " ++ s)

/-- `assembler.parseConstant` (part_012 / bits.go): strip an optional `#`,
trim, try a character literal, then a symbol, then a prefixed number. -/
def parseConstant (s : String) (asm : Assembler) : Except String Int :=
  let s := trimStr (trimPrefixStr s "#")
  if s.length ≥ 3 ∧ s.data.headD ' ' = Char.ofNat 39 ∧ s.data.getLastD ' ' = Char.ofNat 39 then
    Except.ok ((s.data.getD 1 ' ').toNat : Int)
  else
    match asm.symbols.lookup (toLowerStr s) with
    | some v => Except.ok v
    | none =>
      let p : String × Nat :=
        if strStartsWith s "$" then (s.drop 1, 16)
        else if strStartsWith (toLowerStr s) "0x" then (s.drop 2, 16)
        else if strStartsWith s "%" then (s.drop 1, 2)
        else (s, 10)
      parseIntGo p.1 p.2

/-- `assembler.ParseMnemonic`: split `MOVE.W` into `("move", SizeWord)`. -/
def ParseMnemonic (s : String) : Except String Mnemonic :=
  let parts := splitOnCh '.' (toLowerStr s)
  let mn : Mnemonic := ⟨parts.headD "", cpu.SizeInvalid⟩
  if parts.length > 1 then
    match parts.getD 1 "" with
    | "b" => Except.ok { mn with Size := cpu.SizeByte }
    | "s" => Except.ok { mn with Size := cpu.SizeByte }
    | "w" => Except.ok { mn with Size := cpu.SizeWord }
    | "l" => Except.ok { mn with Size := cpu.SizeLong }
    | suffix => Except.error ("invalid size suffix: " ++ suffix)
  else Except.ok mn

/-! ## Operand-pattern recognisers

Each Go regular expression in bits.go / part_012 is an anchored pattern over
a small character class; each is embedded as a recogniser returning the
captured groups. All are case-insensitive, as in the source (`(?i)`). -/

/-- Character class `[a-fA-F0-9$\-%]` used by displacement/absolute patterns. -/
def isDispChar (c : Char) : Bool :=
  c.isDigit ∨ ('a' ≤ c.toLower ∧ c.toLower ≤ 'f') ∨ c = '$' ∨ c = '-' ∨ c = '%'

/-- Character class `[a-zA-Z0-9_$\-%]` used by `rePCRelDisp`. -/
def isPcDispChar (c : Char) : Bool :=
  c.isAlphanum ∨ c = '_' ∨ c = '$' ∨ c = '-' ∨ c = '%'

/-- `[0-7]` capture. -/
def octalDigit (c : Char) : Option Nat :=
  if '0' ≤ c ∧ c ≤ '7' then some (c.toNat - 48) else none

/-- `reDataRegister`: `^d([0-7])$`. -/
def matchDataRegister (s : String) : Option Nat :=
  match s.data with
  | [d, c] => if d.toLower = 'd' then octalDigit c else none
  | _ => none

/-- `reAddressRegister`: `^a([0-7])$`. -/
def matchAddressRegister (s : String) : Option Nat :=
  match s.data with
  | [a, c] => if a.toLower = 'a' then octalDigit c else none
  | _ => none

/-- `reAddressIndirect`: `^\(a([0-7])\)$`. -/
def matchAddressIndirect (s : String) : Option Nat :=
  match s.data with
  | ['(', a, c, ')'] => if a.toLower = 'a' then octalDigit c else none
  | _ => none

/-- `reAddressPostInc`: `^\(a([0-7])\)\+$`. -/
def matchAddressPostInc (s : String) : Option Nat :=
  match s.data with
  | ['(', a, c, ')', '+'] => if a.toLower = 'a' then octalDigit c else none
  | _ => none

/-- `reAddressPreDec`: `^-\(a([0-7])\)$`. -/
def matchAddressPreDec (s : String) : Option Nat :=
  match s.data with
  | ['-', '(', a, c, ')'] => if a.toLower = 'a' then octalDigit c else none
  | _ => none

/-- `reAddressDisp`: `^([a-fA-F0-9$\-%]+)\(a([0-7])\)$`. -/
def matchAddressDisp (s : String) : Option (String × Nat) :=
  let p := s.data.span isDispChar
  match p.2 with
  | ['(', a, c, ')'] =>
    if p.1 ≠ [] ∧ a.toLower = 'a' then
      (octalDigit c).map (fun r => (String.mk p.1, r))
    else none
  | _ => none

/-- `reImmediate`: `^#(.+)$`. -/
def matchImmediate (s : String) : Option String :=
  match s.data with
  | '#' :: rest => if rest ≠ [] then some (String.mk rest) else none
  | _ => none

/-- `reAbsoluteParenShort` / `reAbsoluteParenLong`:
`^\(([a-fA-F0-9$\-%]+)\)\.w$` and `...\.l$`; result pairs the captured text
with `true` for the `.w` form. -/
def matchAbsoluteParen (s : String) : Option (String × Bool) :=
  match s.data with
  | '(' :: rest =>
    let p := rest.span isDispChar
    match p.2 with
    | [')', '.', z] =>
      if p.1 ≠ [] ∧ (z.toLower = 'w' ∨ z.toLower = 'l') then
        some (String.mk p.1, z.toLower = 'w')
      else none
    | _ => none
  | _ => none

/-- `reAbsoluteDollarSize`: `^\$([a-fA-F0-9]+)\.(w|l)$`. -/
def matchAbsoluteDollarSize (s : String) : Option (String × Bool) :=
  match s.data with
  | '$' :: rest =>
    let p := rest.span (fun c => c.isDigit ∨ ('a' ≤ c.toLower ∧ c.toLower ≤ 'f'))
    match p.2 with
    | ['.', z] =>
      if p.1 ≠ [] ∧ (z.toLower = 'w' ∨ z.toLower = 'l') then
        some (String.mk p.1, z.toLower = 'w')
      else none
    | _ => none
  | _ => none

/-- `reAddressIndex`: `^([a-fA-F0-9$\-%]*)\(a([0-7]),(d|a)([0-7])\.(w|l)\)$`.
Captures (displacement text, An, index-is-address?, Xn, size-is-long?). -/
def matchAddressIndex (s : String) : Option (String × Nat × Bool × Nat × Bool) :=
  let p := s.data.span isDispChar
  match p.2 with
  | ['(', a, an, ',', x, xn, '.', z, ')'] =>
    if a.toLower = 'a' ∧ (x.toLower = 'd' ∨ x.toLower = 'a') ∧
        (z.toLower = 'w' ∨ z.toLower = 'l') then
      match octalDigit an, octalDigit xn with
      | some ra, some rx =>
        some (String.mk p.1, ra, x.toLower = 'a', rx, z.toLower = 'l')
      | _, _ => none
    else none
  | _ => none

/-- `rePCRelDispParen`: `^\(([a-fA-F0-9$\-%]+),\s*pc\)$`. -/
def matchPCRelDispParen (s : String) : Option String :=
  match s.data with
  | '(' :: rest =>
    let p := rest.span isDispChar
    let q := p.2
    match q with
    | ',' :: tail =>
      let t := tail.dropWhile (fun c => c = ' ' ∨ c = '\t')
      match t with
      | [pch, cch, ')'] =>
        if p.1 ≠ [] ∧ pch.toLower = 'p' ∧ cch.toLower = 'c' then
          some (String.mk p.1)
        else none
      | _ => none
    | _ => none
  | _ => none

/-- `rePCRelDisp`: `^([a-zA-Z0-9_$\-%]+)\(pc\)$`. -/
def matchPCRelDisp (s : String) : Option String :=
  let p := s.data.span isPcDispChar
  match p.2 with
  | ['(', pch, cch, ')'] =>
    if p.1 ≠ [] ∧ pch.toLower = 'p' ∧ cch.toLower = 'c' then some (String.mk p.1)
    else none
  | _ => none

/-- `rePCRelIndex`: `^([a-fA-F0-9$\-%]*)\(pc,(d|a)([0-7])\.(w|l)\)$`. -/
def matchPCRelIndex (s : String) : Option (String × Bool × Nat × Bool) :=
  let p := s.data.span isDispChar
  match p.2 with
  | ['(', pch, cch, ',', x, xn, '.', z, ')'] =>
    if pch.toLower = 'p' ∧ cch.toLower = 'c' ∧ (x.toLower = 'd' ∨ x.toLower = 'a') ∧
        (z.toLower = 'w' ∨ z.toLower = 'l') then
      (octalDigit xn).map (fun rx => (String.mk p.1, x.toLower = 'a', rx, z.toLower = 'l'))
    else none
  | _ => none

/-- `reAbsoluteSimple`: `^\$[a-fA-F0-9]+$`; returns the full match. -/
def matchAbsoluteSimple (s : String) : Option String :=
  match s.data with
  | '$' :: rest =>
    if rest ≠ [] ∧ rest.all (fun c => c.isDigit ∨ ('a' ≤ c.toLower ∧ c.toLower ≤ 'f')) then
      some s
    else none
  | _ => none

/-- `reLabel`: `^[a-z_][a-z0-9_]*$` (case-insensitive). -/
def matchLabel (s : String) : Bool :=
  match s.data with
  | c :: rest => (c.isAlpha ∨ c = '_') ∧ rest.all (fun d => d.isAlphanum ∨ d = '_')
  | [] => false

/-- Go `v >> k` on a signed value: arithmetic shift, i.e. floor division. -/
def ishr (v : Int) (k : Nat) : Int := Int.fdiv v (2 ^ k)

/-- `assembler.parseAddressIndex`: build the operand for `(d8,An,Xn.s)`. -/
def parseAddressIndex (s : String) (m : String × Nat × Bool × Nat × Bool) (asm : Assembler) :
    Except String Operand := do
  let op : Operand := { Raw := s, Mode := cpu.ModeAddrIndex }
  let disp ← if m.1 ≠ "" then parseConstant m.1 asm else pure 0
  let ext := iu8 disp
  let ext := ext ||| (m.2.2.2.1 <<< 12)
  let ext := if m.2.2.1 then ext ||| 0x8000 else ext
  let ext := if m.2.2.2.2 then ext ||| 0x0800 else ext
  Except.ok { op with Register := m.2.1, ExtensionWords := [ext] }

/-- `assembler.parsePCRelIndex`: build the operand for `(d8,PC,Xn.s)`. -/
def parsePCRelIndex (s : String) (m : String × Bool × Nat × Bool) (asm : Assembler) :
    Except String Operand := do
  let op : Operand := { Raw := s, Mode := cpu.ModeOther, Register := cpu.RegPCIndex }
  let disp ← if m.1 ≠ "" then parseConstant m.1 asm else pure 0
  let ext := iu8 disp
  let ext := ext ||| (m.2.2.1 <<< 12)
  let ext := if m.2.1 then ext ||| 0x8000 else ext
  let ext := if m.2.2.2 then ext ||| 0x0800 else ext
  Except.ok { op with ExtensionWords := [ext] }

/-- `assembler.parseOperand` (part_012): try the addressing-mode patterns in
source order and build the corresponding operand. -/
def parseOperand (s : String) (asm : Assembler) : Except String Operand :=
  let s := trimStr s
  let lcs := toLowerStr s
  if lcs = "sr" ∨ lcs = "ccr" ∨ lcs = "usp" then
    Except.ok { Raw := s, Mode := cpu.ModeOther, Register := 0xFFFF }
  else
    let op : Operand := { Raw := s }
    match matchAddressIndex s with
    | some m => parseAddressIndex s m asm
    | none =>
    match matchPCRelIndex s with
    | some m => parsePCRelIndex s m asm
    | none =>
    match matchPCRelDispParen s with
    | some inner =>
      match parseConstant inner asm with
      | Except.ok val =>
        Except.ok { op with Mode := cpu.ModeOther, Register := cpu.ModePCRelative,
                            ExtensionWords := [iu16 val] }
      | Except.error _ =>
        Except.ok { op with Mode := cpu.ModeOther, Register := cpu.ModePCRelative,
                            Label := toLowerStr inner }
    | none =>
    match matchPCRelDisp s with
    | some inner =>
      match parseConstant inner asm with
      | Except.ok val =>
        Except.ok { op with Mode := cpu.ModeOther, Register := cpu.ModePCRelative,
                            ExtensionWords := [iu16 val] }
      | Except.error _ =>
        Except.ok { op with Mode := cpu.ModeOther, Register := cpu.ModePCRelative,
                            Label := toLowerStr inner }
    | none =>
    match matchAbsoluteParen s with
    | some m => do
      let val ← parseConstant m.1 asm
      if m.2 then
        Except.ok { op with Mode := cpu.ModeOther, Register := cpu.RegAbsShort,
                            ExtensionWords := [iu16 val] }
      else
        Except.ok { op with Mode := cpu.ModeOther, Register := cpu.RegAbsLong,
                            ExtensionWords := [iu16 (ishr val 16), iu16 val] }
    | none =>
    match matchAbsoluteDollarSize s with
    | some m => do
      let val ← parseIntGo m.1 16
      if m.2 then
        Except.ok { op with Mode := cpu.ModeOther, Register := cpu.RegAbsShort,
                            ExtensionWords := [iu16 val] }
      else
        Except.ok { op with Mode := cpu.ModeOther, Register := cpu.RegAbsLong,
                            ExtensionWords := [iu16 (ishr val 16), iu16 val] }
    | none =>
    match matchDataRegister s with
    | some reg => Except.ok { op with Mode := cpu.ModeData, Register := reg }
    | none =>
    match matchAddressRegister s with
    | some reg => Except.ok { op with Mode := cpu.ModeAddr, Register := reg }
    | none =>
    match matchAddressIndirect s with
    | some reg => Except.ok { op with Mode := cpu.ModeAddrInd, Register := reg }
    | none =>
    match matchAddressPostInc s with
    | some reg => Except.ok { op with Mode := cpu.ModeAddrPostInc, Register := reg }
    | none =>
    match matchAddressPreDec s with
    | some reg => Except.ok { op with Mode := cpu.ModeAddrPreDec, Register := reg }
    | none =>
    match matchAddressDisp s with
    | some m => do
      let disp ← parseConstant m.1 asm
      Except.ok { op with Mode := cpu.ModeAddrDisp, Register := m.2,
                          ExtensionWords := [iu16 disp] }
    | none =>
    match matchImmediate s with
    | some inner => do
      let val ← parseConstant inner asm
      if val > 0xFFFF ∨ val < -32768 then
        Except.ok { op with Mode := cpu.ModeOther, Register := cpu.RegImmediate,
                            ExtensionWords := [iu16 (ishr val 16), iu16 val] }
      else
        Except.ok { op with Mode := cpu.ModeOther, Register := cpu.RegImmediate,
                            ExtensionWords := [iu16 val] }
    | none =>
    match matchAbsoluteSimple s with
    | some full => do
      let val ← parseConstant full asm
      if val ≤ 0xFFFF then
        Except.ok { op with Mode := cpu.ModeOther, Register := cpu.RegAbsShort,
                            ExtensionWords := [iu16 val] }
      else
        Except.ok { op with Mode := cpu.ModeOther, Register := cpu.RegAbsLong,
                            ExtensionWords := [iu16 (ishr val 16), iu16 val] }
    | none =>
    if matchLabel s then
      Except.ok { op with Mode := cpu.ModeOther, Register := RegLabel, Label := toLowerStr s }
    else
      Except.error ("unknown operand format: " ++ s)

/-- `assembler.splitOperands`: split on top-level commas (parenthesis-aware). -/
def splitOperandsAux : List Char → Int → List Char → List String → List String
  | [], _, cur, acc => acc ++ [trimStr (String.mk cur.reverse)]
  | c :: rest, level, cur, acc =>
    if c = '(' then splitOperandsAux rest (level + 1) (c :: cur) acc
    else if c = ')' then splitOperandsAux rest (level - 1) (c :: cur) acc
    else if c = ',' ∧ level = 0 then
      splitOperandsAux rest level [] (acc ++ [trimStr (String.mk cur.reverse)])
    else splitOperandsAux rest level (c :: cur) acc

/-- `assembler.splitOperands`. -/
def splitOperands (s : String) : List String :=
  splitOperandsAux s.data 0 [] []

/-- `strings.SplitN(line, ":", 2)`, as used for label extraction. -/
def splitN2Colon (s : String) : String × String :=
  let p := s.data.span (· ≠ ':')
  match p.2 with
  | _ :: post => (String.mk p.1, String.mk post)
  | [] => (s, "")

/-- Strip a `;` comment (`strings.IndexRune`). -/
def stripComment (s : String) : String :=
  match s.data.findIdx? (· = ';') with
  | some i => String.mk (s.data.take i)
  | none => s

/-- One parsed line's contribution, mirroring the body of
`assembler.parseLines`; the accumulator carries nodes and the symbol table. -/
def parseLinesGo (lines : List String) (i : Nat) (asm : Assembler) (acc : List Node) :
    Except String (List Node × Assembler) :=
  match lines with
  | [] => Except.ok (acc, asm)
  | line :: rest =>
    let line := trimStr (stripComment line)
    if line = "" ∨ strStartsWith line "*" then parseLinesGo rest (i + 1) asm acc
    else
      let p : List Node × String :=
        if strContainsCh line ':' then
          let parts := splitN2Colon line
          let parsedLabel := trimStr parts.1
          if !(parsedLabel.data.any (fun c => c = ' ' ∨ c = '\t')) then
            let label := toLowerStr parsedLabel
            (acc ++ [{ Type' := NodeLabel, Label := label, Parts := [label ++ ":"] }],
             trimStr parts.2)
          else (acc, line)
        else (acc, line)
      let acc := p.1
      let line := p.2
      if line = "" then parseLinesGo rest (i + 1) asm acc
      else
        let q : String × String :=
          match line.data.findIdx? (fun c => c = ' ' ∨ c = '\t') with
          | none => (line, "")
          | some idx => (String.mk (line.data.take idx), trimStr (String.mk (line.data.drop idx)))
        let mnemonic := q.1
        let operandStr := q.2
        let opFields := fieldsStr operandStr
        if opFields.length > 0 ∧ equalFold (opFields.headD "") "equ" then
          let expr := String.intercalate " " (opFields.drop 1)
          match parseConstant expr asm with
          | Except.error e =>
            Except.error ("line " ++ natStr (i + 1) ++ ": invalid equ value for " ++
              mnemonic ++ ": " ++ e)
          | Except.ok val =>
            parseLinesGo rest (i + 1)
              { asm with symbols := setAssoc asm.symbols (toLowerStr mnemonic) val } acc
        else
          let nodeParts := [mnemonic] ++ (if operandStr ≠ "" then [operandStr] else [])
          let directiveCheck := toLowerStr (trimPrefixStr mnemonic ".")
          if directiveCheck = "dc.b" ∨ directiveCheck = "dc.w" ∨ directiveCheck = "dc.l" ∨
             directiveCheck = "ds.b" ∨ directiveCheck = "ds.w" ∨ directiveCheck = "ds.l" ∨
             directiveCheck = "org" ∨ directiveCheck = "even" then
            parseLinesGo rest (i + 1) asm (acc ++ [{ Type' := NodeDirective, Parts := nodeParts }])
          else
            match ParseMnemonic mnemonic with
            | Except.error e => Except.error ("line " ++ natStr (i + 1) ++ ": " ++ e)
            | Except.ok mn =>
              let splitOps := if operandStr ≠ "" then splitOperands operandStr else []
              let opsE := splitOps.foldlM
                (fun (ops : List Operand) (s : String) =>
                  let s := trimStr s
                  if s = "" then Except.ok ops
                  else
                    match parseOperand s asm with
                    | Except.error e =>
                      Except.error ("line " ++ natStr (i + 1) ++ ": error parsing operand '" ++
                        s ++ "': " ++ e)
                    | Except.ok op => Except.ok (ops ++ [op])) []
              match opsE with
              | Except.error e => Except.error e
              | Except.ok operands =>
                parseLinesGo rest (i + 1) asm
                  (acc ++ [{ Type' := NodeInstruction, Mnemonic := mn,
                             Operands := operands, Parts := nodeParts }])

/-- `assembler.parseLines`. -/
def parseLines (asm : Assembler) (lines : List String) : Except String (List Node × Assembler) :=
  parseLinesGo lines 0 asm []

/-! ## EA encoding and opword size fields -/

/-- `assembler.commonSizeBits` / `SizeBits` / `SizeBitsSingleOp` / `SizeBitsTst`. -/
def commonSizeBits : cpu.Size → Option Nat
  | cpu.SizeByte => some 0x0000
  | cpu.SizeWord => some 0x0040
  | cpu.SizeLong => some 0x0080
  | _ => none

/-- `assembler.SizeBits` (dual-operand instructions). -/
def SizeBits : cpu.Size → Option Nat := commonSizeBits

/-- `assembler.SizeBitsSingleOp` (single-operand instructions). -/
def SizeBitsSingleOp : cpu.Size → Option Nat := commonSizeBits

/-- `assembler.SizeBitsAddr` (ADDA/SUBA/CMPA). -/
def SizeBitsAddr : cpu.Size → Option Nat
  | cpu.SizeWord => some 0x00C0
  | cpu.SizeLong => some 0x01C0
  | _ => none

/-- `assembler.BitwiseSize` (shift/rotate register forms). -/
def BitwiseSize : cpu.Size → Option Nat := commonSizeBits

/-- `assembler.setOpwordSize`: apply the size field to an opword; a missing
suffix defaults to word. -/
def setOpwordSize (opword : Nat) (size : cpu.Size) (sizeMap : cpu.Size → Option Nat) :
    Except String Nat :=
  let size := if size = cpu.SizeInvalid then cpu.SizeWord else size
  match sizeMap size with
  | some bits => Except.ok (opword ||| bits)
  | none => Except.error "unsupported size for this instruction"

/-- `assembler.encodeEA` (part_015): 6-bit EA field plus extension words.
For the immediate sub-mode the extension words are copied from the operand
unchanged — their number was fixed by `parseOperand` from the value alone. -/
def encodeEA (op : Operand) : Except String (Nat × List Nat) :=
  if op.Mode = cpu.ModeData then Except.ok ((cpu.ModeData <<< 3) ||| op.Register, [])
  else if op.Mode = cpu.ModeAddr then Except.ok ((cpu.ModeAddr <<< 3) ||| op.Register, [])
  else if op.Mode = cpu.ModeAddrInd then Except.ok ((cpu.ModeAddrInd <<< 3) ||| op.Register, [])
  else if op.Mode = cpu.ModeAddrPostInc then
    Except.ok ((cpu.ModeAddrPostInc <<< 3) ||| op.Register, [])
  else if op.Mode = cpu.ModeAddrPreDec then
    Except.ok ((cpu.ModeAddrPreDec <<< 3) ||| op.Register, [])
  else if op.Mode = cpu.ModeAddrDisp then
    Except.ok ((cpu.ModeAddrDisp <<< 3) ||| op.Register, op.ExtensionWords)
  else if op.Mode = cpu.ModeAddrIndex then
    Except.ok ((cpu.ModeAddrIndex <<< 3) ||| op.Register, op.ExtensionWords)
  else if op.Mode = cpu.ModeOther then
    if op.Register = cpu.ModeAbsShort then
      Except.ok ((cpu.ModeOther <<< 3) ||| cpu.ModeAbsShort, op.ExtensionWords)
    else if op.Register = cpu.ModeAbsLong then
      Except.ok ((cpu.ModeOther <<< 3) ||| cpu.ModeAbsLong, op.ExtensionWords)
    else if op.Register = cpu.ModePCRelative then
      Except.ok ((cpu.ModeOther <<< 3) ||| cpu.ModePCRelative, [op.ExtensionWords.headD 0])
    else if op.Register = cpu.ModePCIndex then
      Except.ok ((cpu.ModeOther <<< 3) ||| 3, op.ExtensionWords)
    else if op.Register = cpu.ModeImmediate then
      Except.ok ((cpu.ModeOther <<< 3) ||| cpu.ModeImmediate, op.ExtensionWords)
    else Except.error ("invalid ModeOther subtype: " ++ natStr op.Register)
  else Except.error ("unsupported addressing mode: " ++ natStr op.Mode)

/-! ## Instruction assembly -/

/-- `strings.ToUpper` (ASCII). -/
def toUpperStr (s : String) : String := String.mk (s.data.map Char.toUpper)

/-- `assembler.CanBeMoveq` (move.go): a move/moveq of an immediate in
[-128,127] into a data register. -/
def CanBeMoveq (mn : Mnemonic) (src dst : Operand) (asm : Assembler) : Bool :=
  let name := toLowerStr mn.Value
  if name ≠ "move" ∧ name ≠ "moveq" then false
  else if dst.Mode == cpu.ModeData && src.IsImmediate then
    match parseConstant src.Raw asm with
    | Except.ok val => decide (val ≥ -128 ∧ val ≤ 127)
    | Except.error _ => false
  else false

/-- The label(pc) pattern `^([a-zA-Z_][a-zA-Z0-9_]*)\(pc\)$` used by
`assembleMove` to patch PC-relative label displacements. -/
def matchLabelPc (s : String) : Option String :=
  let p := s.data.span (fun c => c.isAlphanum ∨ c = '_')
  match p.1, p.2 with
  | c :: _, ['(', pch, cch, ')'] =>
    if (c.isAlpha ∨ c = '_') ∧ pch.toLower = 'p' ∧ cch.toLower = 'c' then
      some (String.mk p.1)
    else none
  | _, _ => none

/-- `assembler.assembleMove` (move.go): MOVE, MOVEA and MOVEQ. -/
def assembleMove (mn : Mnemonic) (operands : List Operand) (asm : Assembler) (pc : Nat) :
    Except String (List Nat) :=
  if operands.length ≠ 2 then
    Except.error (toUpperStr mn.Value ++ " requires 2 operands")
  else
    let src := operands.getD 0 {}
    let dst := operands.getD 1 {}
    let src :=
      match asm.labels.lookup (toLowerStr src.Raw) with
      | some target =>
        if !src.IsImmediate then
          { src with Mode := cpu.ModeOther, Register := cpu.ModeAbsLong,
                     ExtensionWords := [u16 (target >>> 16), u16 target] }
        else src
      | none => src
    let dst :=
      match asm.labels.lookup (toLowerStr dst.Raw) with
      | some target =>
        if !dst.IsImmediate then
          { dst with Mode := cpu.ModeOther, Register := cpu.ModeAbsLong,
                     ExtensionWords := [u16 (target >>> 16), u16 target] }
        else dst
      | none => dst
    if CanBeMoveq mn src dst asm then
      let val := (parseConstant src.Raw asm).toOption.getD 0
      if mn.Size = cpu.SizeWord ∨ mn.Size = cpu.SizeByte then
        Except.error "MOVEQ only supports .L size"
      else
        Except.ok [cpu.OPMOVEQ ||| (dst.Register <<< 9) ||| (iu16 val &&& 0x00FF)]
    else if dst.Mode = cpu.ModeAddr then
      match mn.Size with
      | cpu.SizeWord => do
        let p ← encodeEA src
        Except.ok ((0x3040 ||| (dst.Register <<< 9) ||| p.1) :: p.2)
      | cpu.SizeLong => do
        let p ← encodeEA src
        Except.ok ((0x2040 ||| (dst.Register <<< 9) ||| p.1) :: p.2)
      | _ => Except.error "MOVEA only supports .W or .L sizes"
    else do
      let sizeBits ←
        match mn.Size with
        | cpu.SizeByte => pure 0x1000
        | cpu.SizeWord => pure 0x3000
        | cpu.SizeLong => pure 0x2000
        | _ => Except.error "unsupported MOVE size"
      let ps ← encodeEA src
      let pd ← encodeEA dst
      let opword := (cpu.OPMOVE ||| sizeBits) ||| (dst.Register <<< 9) ||| (dst.Mode <<< 6) ||| ps.1
      let srcExt :=
        if src.Mode = cpu.ModeOther ∧ src.Register = cpu.ModePCRelative then
          match matchLabelPc src.Raw with
          | some label =>
            match asm.labels.lookup (toLowerStr label) with
            | some target =>
              let offset := toI32 target - toI32 pc - 2
              match ps.2 with
              | _ :: rest => iu16 offset :: rest
              | [] => ps.2
            | none => ps.2
          | none => ps.2
        else ps.2
      Except.ok (opword :: (srcExt ++ pd.2))

/-- `assembler.CanBeAddqSubq` (maths.go). -/
def CanBeAddqSubq (mn : Mnemonic) (src : Operand) (asm : Assembler) : Bool :=
  let m := toLowerStr mn.Value
  if m ≠ "addq" ∧ m ≠ "subq" then false
  else if !src.IsImmediate then false
  else
    match parseConstant src.Raw asm with
    | Except.ok val => decide (val ≥ 1 ∧ val ≤ 8)
    | Except.error _ => false

/-- `assembler.assembleAdd` (maths.go): ADDQ / ADDI / ADDA / ADD. -/
def assembleAdd (mn : Mnemonic) (operands : List Operand) (asm : Assembler) :
    Except String (List Nat) :=
  if operands.length ≠ 2 then Except.error "ADD requires 2 operands"
  else
    let src := operands.getD 0 {}
    let dst := operands.getD 1 {}
    if CanBeAddqSubq mn src asm then do
      let val := (parseConstant src.Raw asm).toOption.getD 0
      let data := if val = 8 then 0 else iu16 val
      let opword := cpu.OPADDQ ||| (data <<< 9)
      let opword ← setOpwordSize opword mn.Size SizeBits
      let p ← encodeEA dst
      Except.ok ((opword ||| p.1) :: p.2)
    else if src.IsImmediate then do
      let opword ← setOpwordSize cpu.OPADDI mn.Size SizeBitsSingleOp
      let p ← encodeEA dst
      let opword := opword ||| p.1
      let val ← parseConstant src.Raw asm
      let immExt :=
        match mn.Size with
        | cpu.SizeLong => [iu16 (ishr val 16), iu16 val]
        | _ => [iu16 val]
      Except.ok (opword :: (immExt ++ p.2))
    else if dst.Mode = cpu.ModeAddr then do
      let opword ← setOpwordSize 0xD000 mn.Size SizeBitsAddr
      let opword := opword ||| (dst.Register <<< 9)
      let p ← encodeEA src
      Except.ok ((opword ||| p.1) :: p.2)
    else do
      let opword ← setOpwordSize cpu.OPADD mn.Size SizeBits
      if dst.Mode = cpu.ModeData then do
        let p ← encodeEA src
        Except.ok ((opword ||| (dst.Register <<< 9) ||| p.1) :: p.2)
      else do
        let p ← encodeEA dst
        Except.ok ((opword ||| 0x0100 ||| (src.Register <<< 9) ||| p.1) :: p.2)

/-- `assembler.assembleSub` (maths.go): SUBQ / SUBI / SUBA / SUB. -/
def assembleSub (mn : Mnemonic) (operands : List Operand) (asm : Assembler) :
    Except String (List Nat) :=
  if operands.length ≠ 2 then Except.error "SUB requires 2 operands"
  else
    let src := operands.getD 0 {}
    let dst := operands.getD 1 {}
    if CanBeAddqSubq mn src asm then do
      let val := (parseConstant src.Raw asm).toOption.getD 0
      let data := if val = 8 then 0 else iu16 val
      let opword := cpu.OPSUBQ ||| (data <<< 9)
      let opword ← setOpwordSize opword mn.Size SizeBits
      let p ← encodeEA dst
      Except.ok ((opword ||| p.1) :: p.2)
    else if src.IsImmediate then do
      let opword ← setOpwordSize cpu.OPSUBI mn.Size SizeBitsSingleOp
      let p ← encodeEA dst
      let opword := opword ||| p.1
      let val ← parseConstant src.Raw asm
      let immExt :=
        match mn.Size with
        | cpu.SizeLong => [iu16 (ishr val 16), iu16 val]
        | _ => [iu16 val]
      Except.ok (opword :: (immExt ++ p.2))
    else if dst.Mode = cpu.ModeAddr then do
      let opword ← setOpwordSize 0x9000 mn.Size SizeBitsAddr
      let opword := opword ||| (dst.Register <<< 9)
      let p ← encodeEA src
      Except.ok ((opword ||| p.1) :: p.2)
    else do
      let opword ← setOpwordSize cpu.OPSUB mn.Size SizeBits
      if dst.Mode = cpu.ModeData then do
        let p ← encodeEA src
        Except.ok ((opword ||| (dst.Register <<< 9) ||| p.1) :: p.2)
      else do
        let p ← encodeEA dst
        Except.ok ((opword ||| 0x0100 ||| (src.Register <<< 9) ||| p.1) :: p.2)

/-- `assembler.assembleLogicalImmediate` (part_010). -/
def assembleLogicalImmediate (baseOpcode : Nat) (mn : Mnemonic) (src dst : Operand) :
    Except String (List Nat) := do
  let opword ← setOpwordSize baseOpcode mn.Size SizeBitsSingleOp
  let p ← encodeEA dst
  Except.ok ((opword ||| p.1) :: (src.ExtensionWords ++ p.2))

/-- `assembler.assembleAnd` (part_010). -/
def assembleAnd (mn : Mnemonic) (operands : List Operand) (_asm : Assembler) :
    Except String (List Nat) :=
  if operands.length ≠ 2 then Except.error "AND requires 2 operands"
  else
    let src := operands.getD 0 {}
    let dst := operands.getD 1 {}
    if src.IsImmediate then assembleLogicalImmediate cpu.OPANDI mn src dst
    else do
      let opword ← setOpwordSize cpu.OPANDconst mn.Size SizeBits
      if dst.Mode = cpu.ModeData then do
        let p ← encodeEA src
        Except.ok ((opword ||| (dst.Register <<< 9) ||| p.1) :: p.2)
      else do
        let p ← encodeEA dst
        Except.ok ((opword ||| 0x0100 ||| (src.Register <<< 9) ||| p.1) :: p.2)

/-- `assembler.assembleOr` (part_010). -/
def assembleOr (mn : Mnemonic) (operands : List Operand) (_asm : Assembler) :
    Except String (List Nat) :=
  if operands.length ≠ 2 then Except.error "OR requires 2 operands"
  else
    let src := operands.getD 0 {}
    let dst := operands.getD 1 {}
    if src.IsImmediate then assembleLogicalImmediate cpu.OPORI mn src dst
    else do
      let opword ← setOpwordSize cpu.OPORconst mn.Size SizeBits
      if dst.Mode = cpu.ModeData then do
        let p ← encodeEA src
        Except.ok ((opword ||| (dst.Register <<< 9) ||| p.1) :: p.2)
      else do
        let p ← encodeEA dst
        Except.ok ((opword ||| 0x0100 ||| (src.Register <<< 9) ||| p.1) :: p.2)

/-- `assembler.assembleEor` (part_010). -/
def assembleEor (mn : Mnemonic) (operands : List Operand) (_asm : Assembler) :
    Except String (List Nat) :=
  if operands.length ≠ 2 then Except.error "EOR requires 2 operands"
  else
    let src := operands.getD 0 {}
    let dst := operands.getD 1 {}
    if src.IsImmediate then assembleLogicalImmediate cpu.OPEORI mn src dst
    else if src.Mode ≠ cpu.ModeData then
      Except.error "source of EOR must be a data register"
    else do
      let sz := if mn.Size = cpu.SizeInvalid then cpu.SizeWord else mn.Size
      let bits ←
        match sz with
        | cpu.SizeByte => pure 0x0000
        | cpu.SizeWord => pure 0x0040
        | cpu.SizeLong => pure 0x0080
        | _ => Except.error "unsupported size for EOR"
      let p ← encodeEA dst
      Except.ok ((cpu.OPEOR ||| bits ||| (src.Register <<< 9) ||| p.1) :: p.2)

/-- `assembler.assembleNot` (part_010). -/
def assembleNot (mn : Mnemonic) (operands : List Operand) : Except String (List Nat) :=
  if operands.length ≠ 1 then Except.error "NOT requires 1 operand"
  else do
    let dst := operands.getD 0 {}
    let opword ← setOpwordSize cpu.OPNOT mn.Size SizeBitsSingleOp
    let p ← encodeEA dst
    Except.ok ((opword ||| p.1) :: p.2)

/-- `assembler.assembleLogical` (part_010 dispatcher). -/
def assembleLogical (mn : Mnemonic) (operands : List Operand) (asm : Assembler) :
    Except String (List Nat) :=
  match toLowerStr mn.Value with
  | "and" => assembleAnd mn operands asm
  | "andi" => assembleAnd mn operands asm
  | "or" => assembleOr mn operands asm
  | "ori" => assembleOr mn operands asm
  | "eor" => assembleEor mn operands asm
  | "eori" => assembleEor mn operands asm
  | "not" => assembleNot mn operands
  | v => Except.error ("unknown logical instruction: " ++ v)

/-- `assembler.assembleStop` (misc.go). -/
def assembleStop (operands : List Operand) : Except String (List Nat) :=
  if operands.length ≠ 1 then Except.error "STOP requires one immediate operand"
  else
    let src := operands.getD 0 {}
    if !src.IsImmediate then Except.error "STOP operand must be immediate"
    else if src.ExtensionWords.length = 0 then
      Except.error "missing 16-bit immediate for STOP"
    else Except.ok [cpu.OPSTOP, src.ExtensionWords.headD 0]

/-- `assembler.assembleMiscNoOp` (misc.go): RESET / NOP / ILLEGAL. -/
def assembleMiscNoOp (mn : Mnemonic) (operands : List Operand) : Except String (List Nat) :=
  if operands.length ≠ 0 then
    Except.error (toUpperStr mn.Value ++ " requires no operands")
  else
    match mn.Value with
    | "reset" => Except.ok [cpu.OPRESET]
    | "nop" => Except.ok [cpu.OPNOP]
    | "illegal" => Except.ok [cpu.OPILLEGAL]
    | v => Except.error ("unknown zero-operand misc instruction: " ++ v)

/-- `assembler.assembleExg` (misc.go). -/
def assembleExg (operands : List Operand) : Except String (List Nat) :=
  if operands.length ≠ 2 then Except.error "EXG requires 2 operands"
  else
    let op1 := operands.getD 0 {}
    let op2 := operands.getD 1 {}
    let opword := cpu.OPEXG
    if op1.Mode = cpu.ModeData ∧ op2.Mode = cpu.ModeData then
      Except.ok [opword ||| 0x0040 ||| (op1.Register <<< 9) ||| op2.Register]
    else if op1.Mode = cpu.ModeAddr ∧ op2.Mode = cpu.ModeAddr then
      Except.ok [opword ||| 0x0048 ||| (op1.Register <<< 9) ||| op2.Register]
    else if op1.Mode = cpu.ModeData ∧ op2.Mode = cpu.ModeAddr then
      Except.ok [opword ||| 0x0088 ||| (op1.Register <<< 9) ||| op2.Register]
    else if op1.Mode = cpu.ModeAddr ∧ op2.Mode = cpu.ModeData then
      Except.ok [opword ||| 0x0088 ||| (op2.Register <<< 9) ||| op1.Register]
    else Except.error "invalid operand combination for EXG"

/-- `assembler.assembleMiscOneOp` (misc.go): CLR/NEG/NEGX/SWAP/EXT/TAS. -/
def assembleMiscOneOp (mn : Mnemonic) (operands : List Operand) : Except String (List Nat) :=
  if operands.length ≠ 1 then
    Except.error (toUpperStr mn.Value ++ " requires 1 operand")
  else do
    let dst := operands.getD 0 {}
    let opword ←
      match toLowerStr mn.Value with
      | "clr" => setOpwordSize cpu.OPCLR mn.Size SizeBitsSingleOp
      | "neg" => setOpwordSize cpu.OPNEG mn.Size SizeBitsSingleOp
      | "negx" => setOpwordSize cpu.OPNEGX mn.Size SizeBitsSingleOp
      | "swap" =>
        if dst.Mode ≠ cpu.ModeData then Except.error "SWAP requires a data register"
        else pure (cpu.OPSWAP ||| dst.Register)
      | "ext" =>
        if dst.Mode ≠ cpu.ModeData then Except.error "EXT requires a data register"
        else
          match mn.Size with
          | cpu.SizeWord => pure ((cpu.OPEXT ||| 0x0080) ||| dst.Register)
          | cpu.SizeInvalid => pure ((cpu.OPEXT ||| 0x0080) ||| dst.Register)
          | cpu.SizeLong => pure ((cpu.OPEXT ||| 0x00C0) ||| dst.Register)
          | _ => Except.error "EXT only supports .w and .l sizes"
      | "tas" => pure cpu.OPTAS
      | v => Except.error ("unsupported misc one-op instruction: " ++ v)
    match encodeEA dst with
    | Except.error e => Except.error ("invalid addressing mode for " ++ mn.Value ++ ": " ++ e)
    | Except.ok p => Except.ok ((opword ||| p.1) :: p.2)

/-- `assembler.assembleMisc` (misc.go dispatcher). -/
def assembleMisc (mn : Mnemonic) (operands : List Operand) : Except String (List Nat) :=
  match toLowerStr mn.Value with
  | "exg" => assembleExg operands
  | "stop" => assembleStop operands
  | "clr" => assembleMiscOneOp mn operands
  | "neg" => assembleMiscOneOp mn operands
  | "negx" => assembleMiscOneOp mn operands
  | "swap" => assembleMiscOneOp mn operands
  | "ext" => assembleMiscOneOp mn operands
  | "tas" => assembleMiscOneOp mn operands
  | "reset" => assembleMiscNoOp mn operands
  | "nop" => assembleMiscNoOp mn operands
  | "illegal" => assembleMiscNoOp mn operands
  | v => Except.error ("unknown misc instruction: " ++ v)

/-- `assembler.assembleMath` (maths.go dispatcher). -/
def assembleMath (mn : Mnemonic) (operands : List Operand) (asm : Assembler) :
    Except String (List Nat) :=
  match toLowerStr mn.Value with
  | "add" => assembleAdd mn operands asm
  | "adda" => assembleAdd mn operands asm
  | "addq" => assembleAdd mn operands asm
  | "addi" => assembleAdd mn operands asm
  | "sub" => assembleSub mn operands asm
  | "suba" => assembleSub mn operands asm
  | "subq" => assembleSub mn operands asm
  | "subi" => assembleSub mn operands asm
  | "neg" => assembleMisc mn operands
  | "negx" => assembleMisc mn operands
  | "addx" => Except.error "not modelled: assembleAddxSubx"
  | "subx" => Except.error "not modelled: assembleAddxSubx"
  | "muls" => Except.error "not modelled: assembleMul"
  | "mulu" => Except.error "not modelled: assembleMul"
  | "divs" => Except.error "not modelled: assembleDiv"
  | "divu" => Except.error "not modelled: assembleDiv"
  | v => Except.error ("unknown math instruction: " ++ v)

/-- `assembler.assembleTrapImmediate` (trap.go). -/
def assembleTrapImmediate (operands : List Operand) (asm : Assembler) :
    Except String (List Nat) :=
  if operands.length ≠ 1 then
    Except.error "TRAP requires 1 operand (an immediate vector number)"
  else
    let src := operands.getD 0 {}
    if !src.IsImmediate then Except.error "TRAP vector must be immediate (e.g., TRAP #3)"
    else
      match parseConstant src.Raw asm with
      | Except.error e => Except.error ("invalid TRAP vector: " ++ e)
      | Except.ok val =>
        if val < 0 ∨ val > 15 then
          Except.error ("TRAP vector must be between 0 and 15 (got " ++ intStr val ++ ")")
        else Except.ok [cpu.OPTRAP ||| iu16 val]

/-- `assembler.assembleTrapv` (trap.go). -/
def assembleTrapv (operands : List Operand) : Except String (List Nat) :=
  if operands.length ≠ 0 then Except.error "TRAPV takes no operands"
  else Except.ok [cpu.OPTRAPV]

/-- `assembler.assembleTrap` (trap.go dispatcher). -/
def assembleTrap (mn : Mnemonic) (operands : List Operand) (asm : Assembler) :
    Except String (List Nat) :=
  match toLowerStr mn.Value with
  | "trap" => assembleTrapImmediate operands asm
  | "trapv" => assembleTrapv operands
  | v => Except.error ("unknown trap instruction: " ++ v)

/-- `assembler.ShiftRotateType` (bits.go). -/
def ShiftRotateType : String → Nat
  | "asr" => 0x0000
  | "asl" => 0x0100
  | "lsr" => 0x0008
  | "lsl" => 0x0108
  | "ror" => 0x0018
  | "rol" => 0x0118
  | "roxr" => 0x0010
  | "roxl" => 0x0110
  | _ => 0

/-- `assembler.assembleShiftRotate` (bits.go, free-function draft). -/
def assembleShiftRotate (mn : Mnemonic) (operands : List Operand) (asm : Assembler) :
    Except String (List Nat) :=
  let opword := cpu.OPShiftRotateBase ||| ShiftRotateType mn.Value
  match operands with
  | [dst] =>
    if mn.Size ≠ cpu.SizeWord ∧ mn.Size ≠ cpu.SizeInvalid then
      Except.error (mn.Value ++ " on memory must be word-sized")
    else do
      let p ← encodeEA dst
      Except.ok ((opword ||| 0x00C0 ||| p.1) :: p.2)
  | [src, dst] =>
    if dst.Mode ≠ cpu.ModeData then
      Except.error ("destination of " ++ mn.Value ++ " must be a data register")
    else do
      let opword := opword ||| dst.Register
      let opword ← setOpwordSize opword mn.Size BitwiseSize
      if src.IsImmediate then
        let count := (parseConstant src.Raw asm).toOption.getD 0
        if count < 1 ∨ count > 8 then
          Except.error "immediate shift/rotate count must be between 1 and 8"
        else Except.ok [opword ||| (iu16 (count % 8) <<< 9)]
      else if src.Mode = cpu.ModeData then
        Except.ok [opword ||| 0x0020 ||| (src.Register <<< 9)]
      else Except.error ("source of " ++ mn.Value ++ " must be data register or immediate")
  | _ => Except.error (mn.Value ++ " requires 1 or 2 operands")

/-- `assembler.assembleBitManipulation` (bits.go, free-function draft). -/
def assembleBitManipulation (mn : Mnemonic) (operands : List Operand) (asm : Assembler) :
    Except String (List Nat) :=
  if operands.length ≠ 2 then
    Except.error (mn.Value ++ " requires 2 operands")
  else
    let src := operands.getD 0 {}
    let dst := operands.getD 1 {}
    let mnLower := toLowerStr mn.Value
    if src.IsImmediate then do
      let val := (parseConstant src.Raw asm).toOption.getD 0
      let opword := 0x0800
      let ext := iu16 val
      let p ← encodeEA dst
      Except.ok ((opword ||| p.1) :: ext :: p.2)
    else if src.Mode ≠ cpu.ModeData then
      Except.error ("source of " ++ mn.Value ++ " must be data register or immediate")
    else do
      let opword := cpu.OPBitManipulationBase ||| (src.Register <<< 9)
      let p ← encodeEA dst
      let opword := opword ||| p.1
      let opword ←
        match mnLower with
        | "btst" => pure (opword ||| 0x0000)
        | "bchg" => pure (opword ||| 0x0040)
        | "bclr" => pure (opword ||| 0x0080)
        | "bset" => pure (opword ||| 0x00C0)
        | v => Except.error ("invalid bit operation: " ++ v)
      Except.ok (opword :: p.2)

/-- `assembler.assembleBitwise` (bits.go dispatcher, free-function draft). -/
def assembleBitwise (mn : Mnemonic) (operands : List Operand) (asm : Assembler) :
    Except String (List Nat) :=
  match toLowerStr mn.Value with
  | "asl" => assembleShiftRotate mn operands asm
  | "asr" => assembleShiftRotate mn operands asm
  | "lsl" => assembleShiftRotate mn operands asm
  | "lsr" => assembleShiftRotate mn operands asm
  | "rol" => assembleShiftRotate mn operands asm
  | "ror" => assembleShiftRotate mn operands asm
  | "btst" => assembleBitManipulation mn operands asm
  | "bset" => assembleBitManipulation mn operands asm
  | "bclr" => assembleBitManipulation mn operands asm
  | "bchg" => assembleBitManipulation mn operands asm
  | v => Except.error ("unknown bitwise instruction: " ++ v)

/-! ## Flow-control assembly (part_016) -/

/-- `assembler.isBranchMnemonic` (assembler.go). -/
def isBranchMnemonic (val : String) : Bool :=
  val = "bra" ∨ val = "bsr" ∨ val = "bhi" ∨ val = "bls" ∨ val = "bcc" ∨ val = "bcs" ∨
  val = "bne" ∨ val = "beq" ∨ val = "bvc" ∨ val = "bvs" ∨ val = "bpl" ∨ val = "bmi" ∨
  val = "bge" ∨ val = "blt" ∨ val = "bgt" ∨ val = "ble" ∨ strStartsWith val "db"

/-- `assembler.canBePCRelative` (assembler.go): jmp/jsr may not be PC-relative. -/
def canBePCRelative (mn : Mnemonic) : Bool :=
  mn.Value ≠ "jmp" ∧ mn.Value ≠ "jsr"

/-- `assembler.assembleJmpJsr` (part_016). -/
def assembleJmpJsr (mn : Mnemonic) (operands : List Operand) (labels : List (String × Nat)) :
    Except String (List Nat) :=
  if operands.length ≠ 1 then
    Except.error (toUpperStr mn.Value ++ " requires 1 operand")
  else
    let src := operands.getD 0 {}
    let opword := if mn.Value = "jmp" then cpu.OPJMP else cpu.OPJSR
    match labels.lookup (toLowerStr src.Raw) with
    | some target =>
      if mn.Value = "jmp" then Except.ok [0x4EF9, u16 (target >>> 16), u16 target]
      else Except.ok [0x4EB9, u16 (target >>> 16), u16 target]
    | none => do
      let p ← encodeEA src
      Except.ok ((opword ||| p.1) :: p.2)

/-- `assembler.assembleBra` (part_016): short or word branch to a label. -/
def assembleBra (mn : Mnemonic) (operands : List Operand) (labels : List (String × Nat))
    (pc : Nat) (size : Nat) : Except String (List Nat) :=
  if operands.length ≠ 1 then Except.error "branch instruction requires 1 operand"
  else
    let label := toLowerStr (trimStr (operands.getD 0 {}).Raw)
    match cpu.BranchOpcodes.lookup mn.Value with
    | none => Except.error ("unknown branch type: " ++ mn.Value)
    | some baseOpcode =>
      match labels.lookup label with
      | none => Except.error ("undefined label: " ++ label)
      | some target =>
        let offset := toI32 target - toI32 (u32 (pc + 2))
        if size = 2 then
          if offset < -128 ∨ offset > 127 then
            Except.error ("short branch to '" ++ label ++ "' out of range (" ++
              intStr offset ++ ")")
          else Except.ok [baseOpcode ||| iu8 offset]
        else
          if offset < -32768 ∨ offset > 32767 then
            Except.error ("branch to '" ++ label ++ "' out of range (" ++ intStr offset ++ ")")
          else Except.ok [baseOpcode, iu16 offset]

/-- `assembler.assembleScc` (part_016). -/
def assembleScc (mn : Mnemonic) (operands : List Operand) : Except String (List Nat) :=
  if operands.length ≠ 1 then Except.error "Scc requires 1 operand"
  else
    let dst := operands.getD 0 {}
    let condStr := toLowerStr (trimPrefixStr mn.Value "s")
    match cpu.ConditionCodes.lookup condStr with
    | none => Except.error ("unknown condition code '" ++ condStr ++ "' for Scc")
    | some condCode =>
      if dst.Mode = cpu.ModeAddr then
        Except.error "Scc destination cannot be an address register"
      else
        Except.ok ((cpu.OPScc ||| (condCode <<< 8) ||| (dst.Mode <<< 3) ||| dst.Register) ::
          dst.ExtensionWords)

/-- `assembler.assembleDbcc` (part_016). -/
def assembleDbcc (mn : Mnemonic) (operands : List Operand) (labels : List (String × Nat))
    (pc : Nat) : Except String (List Nat) :=
  if operands.length ≠ 2 then Except.error "DBcc requires 2 operands (Dn, label)"
  else
    let src := operands.getD 0 {}
    let dst := operands.getD 1 {}
    if src.Mode ≠ cpu.ModeData then
      Except.error "first operand of DBcc must be a data register"
    else
      let condStr := toLowerStr (trimPrefixStr mn.Value "db")
      let condStr := if condStr = "ra" then "f" else condStr
      match cpu.ConditionCodes.lookup condStr with
      | none => Except.error ("unknown condition code '" ++ condStr ++ "' for DBcc")
      | some condCode =>
        let opword := cpu.OPDBcc ||| (condCode <<< 8) ||| src.Register
        let labelName' := toLowerStr (trimStr dst.Raw)
        match labels.lookup labelName' with
        | none => Except.error ("undefined label '" ++ labelName' ++ "'")
        | some target =>
          let offset := toI32 target - toI32 (u32 (pc + 2))
          if offset < -32768 ∨ offset > 32767 then
            Except.error "branch target out of range for DBcc"
          else Except.ok [opword, iu16 offset]

/-- `assembler.assembleFlow` (part_016 dispatcher). -/
def assembleFlow (mn : Mnemonic) (operands : List Operand) (labels : List (String × Nat))
    (pc : Nat) (size : Nat) : Except String (List Nat) :=
  match mn.Value with
  | "jmp" => assembleJmpJsr mn operands labels
  | "jsr" => assembleJmpJsr mn operands labels
  | "rts" => Except.ok [cpu.OPRTS]
  | "rtr" => Except.ok [cpu.OPRTR]
  | "rte" => Except.ok [cpu.OPRTE]
  | v =>
    if isBranchMnemonic v ∧ !strStartsWith v "db" then assembleBra mn operands labels pc size
    else Except.error ("unknown flow instruction: " ++ v)

/-- `assembler.getSizeBra` (part_016): branch size for the sizing pass. -/
def getSizeBra (n : Node) (asm : Assembler) (pc : Nat) : Nat :=
  if n.Mnemonic.Size = cpu.SizeByte then 2
  else if n.Mnemonic.Size = cpu.SizeWord then 4
  else if n.Operands.length = 0 then 2
  else
    let label := toLowerStr (trimStr (n.Operands.getD 0 {}).Raw)
    match asm.labels.lookup label with
    | none => 4
    | some target =>
      let offset := toI32 target - toI32 (u32 (pc + 2))
      if offset ≥ -128 ∧ offset ≤ 127 then 2 else 4

/-! ## Directives (directives.go) -/

/-- The apostrophe and double-quote characters (written via code points to
keep the source free of quote characters inside literals). -/
def quoteCh : Char := Char.ofNat 39

/-- The double-quote character. -/
def dquoteCh : Char := Char.ofNat 34

/-- `assembler.getElementSize` (directives.go). -/
def getElementSize (directive : String) : Nat :=
  match toLowerStr (trimPrefixStr directive ".") with
  | "dc.b" => 1
  | "ds.b" => 1
  | "dcb" => 1
  | "dsb" => 1
  | "dc.w" => 2
  | "ds.w" => 2
  | "dcw" => 2
  | "dsw" => 2
  | "dc.l" => 4
  | "ds.l" => 4
  | "dcl" => 4
  | "dsl" => 4
  | _ => 1

/-- Character loop of `calculateDcSize`'s string branch. -/
def dcSizeChars : List Char → Bool → Char → Nat → Nat
  | [], _, _, size => size
  | c :: rest, inQuote, qc, size =>
    if c = quoteCh ∨ c = dquoteCh then
      if inQuote ∧ c = qc then dcSizeChars rest false qc size
      else if !inQuote then dcSizeChars rest true c size
      else dcSizeChars rest inQuote qc size
    else if inQuote then dcSizeChars rest inQuote qc (size + 1)
    else dcSizeChars rest inQuote qc size

/-- `assembler.calculateDcSize` (directives.go): byte size of a `dc`
directive's data, word-aligned. -/
def calculateDcSize (directive values : String) (_asm : Assembler) : Except String Nat :=
  let elementSize := getElementSize directive
  let size :=
    if elementSize = 1 ∧ (strContainsCh values dquoteCh ∨ strContainsCh values quoteCh) then
      dcSizeChars values.data false ' ' 0
    else
      ((splitOnCh ',' values).filter (fun p => trimStr p ≠ "")).length * elementSize
  Except.ok (if size % 2 ≠ 0 then size + 1 else size)

/-- Character loop of `assembleDc`'s mixed string/numeric branch. -/
def dcStringGo (asm : Assembler) : List Char → Bool → Char → List Char → List Nat →
    Except String (List Nat)
  | [], inQuote, _, token, buf =>
    if token ≠ [] ∧ !inQuote then
      let t := trimStr (String.mk token.reverse)
      if t ≠ "" then
        match parseConstant t asm with
        | Except.error e => Except.error ("invalid constant '" ++ t ++ "': " ++ e)
        | Except.ok val => Except.ok (buf ++ [iu8 val])
      else Except.ok buf
    else Except.ok buf
  | c :: rest, inQuote, qc, token, buf =>
    if c = quoteCh ∨ c = dquoteCh then
      if inQuote ∧ c = qc then
        dcStringGo asm rest false qc [] (buf ++ token.reverse.map (fun ch => ch.toNat % 256))
      else if !inQuote then dcStringGo asm rest true c token buf
      else dcStringGo asm rest inQuote qc (c :: token) buf
    else if c = ',' then
      if !inQuote then
        let t := trimStr (String.mk token.reverse)
        if t ≠ "" then
          match parseConstant t asm with
          | Except.error e => Except.error ("invalid constant '" ++ t ++ "': " ++ e)
          | Except.ok val => dcStringGo asm rest inQuote qc [] (buf ++ [iu8 val])
        else dcStringGo asm rest inQuote qc [] buf
      else dcStringGo asm rest inQuote qc (c :: token) buf
    else dcStringGo asm rest inQuote qc (c :: token) buf

/-- Numeric-only branch of `assembleDc`: big-endian bytes of each value. -/
def dcNumericGo (asm : Assembler) (elementSize : Nat) (parts : List String) :
    Except String (List Nat) :=
  parts.foldlM
    (fun buf p =>
      let trimmed := trimStr p
      if trimmed = "" then Except.ok buf
      else
        match parseConstant trimmed asm with
        | Except.error e => Except.error ("invalid constant '" ++ trimmed ++ "': " ++ e)
        | Except.ok val =>
          match elementSize with
          | 1 => Except.ok (buf ++ [iu8 val])
          | 2 => Except.ok (buf ++ [iu8 (ishr val 8), iu8 val])
          | 4 => Except.ok (buf ++ [iu8 (ishr val 24), iu8 (ishr val 16), iu8 (ishr val 8), iu8 val])
          | _ => Except.ok buf)
    []

/-- The pair-swap loop of `assembleDc` step 3. -/
def swapPairs : List Nat → List Nat
  | a :: b :: rest => b :: a :: swapPairs rest
  | l => l

/-- `assembler.assembleDc` (directives.go): parse the values into bytes in
Motorola order, pad to even length, swap byte pairs when
`cpu.IsLittleEndianHost` reports true, and convert to words. -/
def assembleDc (directive values : String) (asm : Assembler) : Except String (List Nat) := do
  let elementSize := getElementSize directive
  let buf ←
    if elementSize = 1 ∧ (strContainsCh values quoteCh ∨ strContainsCh values dquoteCh) then
      dcStringGo asm values.data false ' ' [] []
    else
      dcNumericGo asm elementSize (splitOnCh ',' values)
  let buf := if buf.length % 2 ≠ 0 then buf ++ [0] else buf
  let buf := if cpu.IsLittleEndianHost then swapPairs buf else buf
  Except.ok (cpu.BytesToWords buf)

/-- `assembler.getDirectiveSize` (directives.go): byte size of a directive
for the sizing pass; `.even` is sized from the current `pc`. -/
def getDirectiveSize (asm : Assembler) (n : Node) (pc : Nat) : Except String Nat :=
  let dir := toLowerStr (trimPrefixStr (toLowerStr (n.Parts.headD "")) ".")
  if dir = "org" ∨ dir = "equ" then Except.ok 0
  else if dir = "even" then
    if pc % 2 ≠ 0 then Except.ok 1 else Except.ok 0
  else if dir = "dc.b" ∨ dir = "dc.w" ∨ dir = "dc.l" then
    if n.Parts.length < 2 then
      Except.error (n.Parts.headD "" ++ " requires at least one value")
    else
      calculateDcSize dir (String.intercalate " " (n.Parts.drop 1)) asm
  else if dir = "ds.b" ∨ dir = "ds.w" ∨ dir = "ds.l" then
    if n.Parts.length ≠ 2 then
      Except.error (n.Parts.headD "" ++ " requires a single count argument")
    else
      match parseConstant (n.Parts.getD 1 "") asm with
      | Except.error e => Except.error ("invalid count for " ++ n.Parts.headD "" ++ ": " ++ e)
      | Except.ok count => Except.ok (u32 (iu32 count * getElementSize dir))
  else Except.error ("unknown directive: " ++ n.Parts.headD "")

/-- `assembler.generateDirectiveCode` (directives.go): big-endian words for a
data directive; `org`/`equ`/`even` contribute none. -/
def generateDirectiveCode (asm : Assembler) (n : Node) : Except String (List Nat) :=
  let dir := toLowerStr (trimPrefixStr (toLowerStr (n.Parts.headD "")) ".")
  if dir = "org" ∨ dir = "equ" ∨ dir = "even" then Except.ok []
  else if dir = "dc.b" ∨ dir = "dc.w" ∨ dir = "dc.l" then
    if n.Parts.length < 2 then
      Except.error (n.Parts.headD "" ++ " requires at least one value")
    else assembleDc dir (String.intercalate " " (n.Parts.drop 1)) asm
  else if dir = "ds.b" ∨ dir = "ds.w" ∨ dir = "ds.l" then
    if n.Parts.length ≠ 2 then
      Except.error (n.Parts.headD "" ++ " requires a single count argument")
    else
      match parseConstant (n.Parts.getD 1 "") asm with
      | Except.error e => Except.error ("invalid count for " ++ n.Parts.headD "" ++ ": " ++ e)
      | Except.ok count =>
        let byteSize := u32 (iu32 count * getElementSize dir)
        Except.ok (List.replicate ((byteSize + 1) / 2) 0)
  else Except.error ("unknown directive: " ++ n.Parts.headD "")

/-! ## The instruction-code generator and the sizing / emission passes -/

/-- `assembler.generateInstructionCode` (assembler.go): resolve label
operands, then dispatch on the mnemonic.  Families that no claim exercises
are marked `not modelled` rather than translated. -/
def generateInstructionCode (asm : Assembler) (n : Node) (pc : Nat) (finalPass : Bool) :
    Except String (List Nat) := do
  let operands ← n.Operands.mapM (fun op =>
    let isBareLabel := op.Mode = cpu.ModeOther ∧ op.Register = RegLabel
    let isExplicitPCRel :=
      op.Mode = cpu.ModeOther ∧ op.Register = cpu.ModePCRelative ∧ op.Label ≠ ""
    if isBareLabel ∨ isExplicitPCRel then
      match asm.labels.lookup op.Label with
      | none =>
        if finalPass then Except.error ("undefined label: " ++ op.Label)
        else
          Except.ok { op with Register := cpu.ModeAbsLong, ExtensionWords := [0, 0] }
      | some target =>
        let offset := toI32 target - toI32 (u32 (pc + 2))
        if isBranchMnemonic n.Mnemonic.Value then Except.ok op
        else if isExplicitPCRel then
          if offset < -32768 ∨ offset > 32767 then
            Except.error ("pc-relative reference to '" ++ op.Label ++ "' is out of range")
          else Except.ok { op with ExtensionWords := [iu16 offset] }
        else if canBePCRelative n.Mnemonic ∧ offset ≥ -32768 ∧ offset ≤ 32767 then
          Except.ok { op with Register := cpu.ModePCRelative, ExtensionWords := [iu16 offset] }
        else
          Except.ok { op with Register := cpu.ModeAbsLong,
                              ExtensionWords := [u16 (target >>> 16), u16 target] }
    else Except.ok op)
  if operands.length > 0 ∧ operands.any (fun o =>
      let raw := toLowerStr (trimStr o.Raw)
      raw = "sr" ∨ raw = "ccr" ∨ raw = "usp") then
    Except.error "not modelled: assembleStatus"
  else
    match n.Mnemonic.Value with
    | "movem" => Except.error "not modelled: assembleMovem"
    | "movep" => Except.error "not modelled: assembleMovep"
    | "move" | "movea" | "moveq" => assembleMove n.Mnemonic operands asm pc
    | "add" | "adda" | "sub" | "suba" | "mulu" | "muls" | "divu" | "divs" | "addx" | "subx"
    | "addq" | "subq" | "addi" | "subi" => assembleMath n.Mnemonic operands asm
    | "and" | "or" | "eor" | "not" | "andi" | "ori" | "eori" =>
      assembleLogical n.Mnemonic operands asm
    | "lea" | "pea" => Except.error "not modelled: assembleAddressMode"
    | "link" | "unlk" => Except.error "not modelled: assembleStack"
    | "cmp" | "cmpa" | "cmpi" | "tst" | "chk" => Except.error "not modelled: assembleCompare"
    | "abcd" | "sbcd" | "nbcd" => Except.error "not modelled: assembleBcd"
    | "clr" | "neg" | "negx" | "swap" | "ext" | "tas" | "exg" | "reset" | "stop" | "nop"
    | "illegal" => assembleMisc n.Mnemonic operands
    | "btst" | "bset" | "bclr" | "bchg" | "lsl" | "lsr" | "asl" | "asr" | "rol" | "ror" =>
      assembleBitwise n.Mnemonic operands asm
    | "trap" | "trapv" => assembleTrap n.Mnemonic operands asm
    | "rte" | "rtr" | "rts" | "jmp" | "jsr" | "bra" | "bsr" | "bhi" | "bls" | "bcc" | "bcs"
    | "bne" | "beq" | "bvc" | "bvs" | "bpl" | "bmi" | "bge" | "blt" | "bgt" | "ble" =>
      assembleFlow n.Mnemonic operands asm.labels pc n.Size
    | v =>
      if strStartsWith v "s" then assembleScc n.Mnemonic operands
      else if strStartsWith v "db" then assembleDbcc n.Mnemonic operands asm.labels pc
      else if !finalPass then Except.ok [0, 0, 0]
      else Except.error ("unknown instruction: " ++ v)

/-- One step of `assembler.runSizingPass`: walk the node list assigning
label addresses and size estimates, reporting whether anything changed. -/
def runSizingGo (asm : Assembler) (pc : Nat) (changed : Bool) (acc : List Node) :
    List Node → Except String (Assembler × List Node × Bool)
  | [] => Except.ok (asm, acc, changed)
  | n :: rest =>
    if n.Type' = NodeLabel then
      let hit : Bool :=
        match asm.labels.lookup n.Label with
        | some addr => addr == pc
        | none => false
      if hit then runSizingGo asm pc changed (acc ++ [n]) rest
      else
        runSizingGo { asm with labels := setAssoc asm.labels n.Label pc } pc true
          (acc ++ [n]) rest
    else if n.Type' = NodeDirective then
      let dirName := toLowerStr (trimPrefixStr (toLowerStr (n.Parts.headD "")) ".")
      if dirName = "org" then
        match parseConstant (n.Parts.getD 1 "") asm with
        | Except.error e => Except.error e
        | Except.ok addr => runSizingGo asm (iu32 addr) changed (acc ++ [n]) rest
      else if dirName = "equ" then runSizingGo asm pc changed (acc ++ [n]) rest
      else
        match getDirectiveSize asm n pc with
        | Except.error e => Except.error e
        | Except.ok size =>
          let p : Node × Bool := if n.Size ≠ size then ({ n with Size := size }, true)
            else (n, changed)
          runSizingGo asm (u32 (pc + size)) p.2 (acc ++ [p.1]) rest
    else
      let size :=
        if isBranchMnemonic n.Mnemonic.Value then getSizeBra n asm pc
        else
          match generateInstructionCode asm n pc false with
          | Except.ok words => words.length * 2
          | Except.error _ => 0
      let p : Node × Bool := if n.Size ≠ size then ({ n with Size := size }, true)
        else (n, changed)
      runSizingGo asm (u32 (pc + size)) p.2 (acc ++ [p.1]) rest

/-- `assembler.runSizingPass`. -/
def runSizingPass (asm : Assembler) (baseAddress : Nat) (nodes : List Node) :
    Except String (Assembler × List Node × Bool) :=
  runSizingGo asm baseAddress false [] nodes

/-- The fixed-point driver loop in `Assemble` (assembler.go lines 43-54):
run the sizing pass, stop when it reports no change, and return the
stabilisation error when the pass counter exceeds 10 with changes still
occurring.  Returns the final state and the number of passes that ran. -/
def sizingGo {σ : Type} (f : σ → Except String (σ × Bool)) :
    Nat → Nat → σ → Except String (σ × Nat)
  | fuel, pass, s =>
    match f s with
    | Except.error e => Except.error ("pass " ++ natStr (pass + 1) ++ " failed: " ++ e)
    | Except.ok (s', changed) =>
      if !changed then Except.ok (s', pass + 1)
      else if pass > 10 then
        Except.error "failed to stabilize label addresses after 10 passes"
      else
        match fuel with
        | 0 => Except.error "failed to stabilize label addresses after 10 passes"
        | n + 1 => sizingGo f n (pass + 1) s'

/-- The sizing loop entered with pass counter 0, as `Assemble` does.  The
structural fuel 12 is one more than the largest pass index the `pass > 10`
check permits, so the fuel-exhaustion branch of `sizingGo` is unreachable
from here and the loop behaves exactly like the Go `for` loop. -/
def sizingFixpoint {σ : Type} (f : σ → Except String (σ × Bool)) (s : σ) :
    Except String (σ × Nat) :=
  sizingGo f 12 0 s

/-- `uint32` subtraction `a - b` (wrapping), for `outputPos = pc - base`. -/
def sub32 (a b : Nat) : Nat := (a + 4294967296 - b) % 4294967296

/-- Go `fmt` rendering of `n.Parts` (`%v` on a string slice). -/
def partsStr (parts : List String) : String :=
  "[" ++ String.intercalate " " parts ++ "]"

/-- The final code-generation loop of `Assemble` (assembler.go lines 56-108).
`org` resets `pc` and `outputPos`; `even` pads one byte when `outputPos` is
odd; data directives and instructions emit their big-endian bytes. -/
def emitGo (asm : Assembler) (base : Nat) (out : List Nat) (pc outputPos : Nat) :
    List Node → Except String (List Nat)
  | [] => Except.ok out
  | n :: rest =>
    if n.Type' = NodeLabel then emitGo asm base out pc outputPos rest
    else if n.Type' = NodeDirective then
      let dirName := toLowerStr (trimPrefixStr (toLowerStr (n.Parts.headD "")) ".")
      if dirName = "org" then
        let addr := (parseConstant (n.Parts.getD 1 "") asm).toOption.getD 0
        let pc := iu32 addr
        emitGo asm base out pc (sub32 pc base) rest
      else if dirName = "even" then
        if outputPos % 2 ≠ 0 then
          emitGo asm base (out ++ [0x00]) (u32 (pc + 1)) (u32 (outputPos + 1)) rest
        else emitGo asm base out pc outputPos rest
      else
        match generateDirectiveCode asm n with
        | Except.error e =>
          Except.error ("final generation failed for '" ++ partsStr n.Parts ++ "': " ++ e)
        | Except.ok words =>
          let bytes := cpu.WordsToBytes words
          if bytes.length > 0 then
            emitGo asm base (out ++ bytes) (u32 (pc + bytes.length))
              (u32 (outputPos + bytes.length)) rest
          else emitGo asm base out pc outputPos rest
    else
      match generateInstructionCode asm n pc true with
      | Except.error e =>
        Except.error ("final generation failed for '" ++ partsStr n.Parts ++ "': " ++ e)
      | Except.ok words =>
        if words.length > 0 then
          let bytes := cpu.WordsToBytes words
          emitGo asm base (out ++ bytes) (u32 (pc + bytes.length))
            (u32 (outputPos + bytes.length)) rest
        else emitGo asm base out pc outputPos rest

/-- `assembler.Assemble` (assembler.go): parse, size to a fixed point, emit. -/
def Assemble (asm : Assembler) (src : String) (baseAddress : Nat) : Except String (List Nat) :=
  let lines := splitOnCh '\n' (String.mk (replaceCRLFgo src.data))
  match parseLines asm lines with
  | Except.error e => Except.error ("parsing error: " ++ e)
  | Except.ok (nodes, asm) =>
    let step : Assembler × List Node → Except String ((Assembler × List Node) × Bool) :=
      fun p =>
        match runSizingPass p.1 baseAddress p.2 with
        | Except.error e => Except.error e
        | Except.ok (a, ns, ch) => Except.ok ((a, ns), ch)
    match sizingFixpoint step (asm, nodes) with
    | Except.error e => Except.error e
    | Except.ok ((asm, nodes), _) => emitGo asm baseAddress [] baseAddress 0 nodes

end assembler

/-! ## `disassembler` package

Reads from the instruction tail are modelled with `Option`-valued
primitives: a `none` result corresponds to an out-of-range slice access
that would panic in Go.  Every read in the source is guarded, which is
re-proved below as the decoder's totality theorem. -/

namespace disassembler

/-- Guarded big-endian 16-bit read from the tail (`binary.BigEndian.Uint16`
on `code[pc:]`; `none` models the panic on a short slice). -/
def readU16o (code : List Nat) (pc : Nat) : Option Nat :=
  if pc + 2 ≤ code.length then some (256 * code.getD pc 0 + code.getD (pc + 1) 0) else none

/-- Guarded big-endian 32-bit read from the tail. -/
def readU32o (code : List Nat) (pc : Nat) : Option Nat :=
  if pc + 4 ≤ code.length then
    some (16777216 * code.getD pc 0 + 65536 * code.getD (pc + 1) 0 +
          256 * code.getD (pc + 2) 0 + code.getD (pc + 3) 0)
  else none

/-- Guarded single-byte read from the tail. -/
def readByteO (code : List Nat) (pc : Nat) : Option Nat :=
  if pc < code.length then some (code.getD pc 0) else none

/-- `disassembler.SizeSuffix`. -/
def SizeSuffix (bits : Nat) : String :=
  if bits = 0 then ".b" else if bits = 1 then ".w" else if bits = 2 then ".l" else ""

/-- `disassembler.formatDisp8`. -/
def formatDisp8 (v : Int) : String :=
  if v ≥ -9 ∧ v ≤ 9 then intStr v else "$" ++ hexStr (iu8 v)

/-- `disassembler.formatDisp16`. -/
def formatDisp16 (v : Int) : String :=
  if v ≥ -9 ∧ v ≤ 9 then intStr v else "$" ++ hexStr (iu16 v)

/-- `disassembler.formatDisp` (branch displacements). -/
def formatDisp (v : Int) : String :=
  if v ≥ 0 then "+" ++ intStr v else intStr v

/-- Inner loop of `formatRegRange`: fold the sorted register list into
ranges, tracking the current run `[start, e]`. -/
def formatRegRangeGo (pfx : String) (start e : Nat) : List Nat → List String
  | [] =>
    if start = e then [pfx ++ natStr start]
    else [pfx ++ natStr start ++ "-" ++ pfx ++ natStr e]
  | r :: rest =>
    if r = e + 1 then formatRegRangeGo pfx start r rest
    else
      (if start = e then [pfx ++ natStr start]
       else [pfx ++ natStr start ++ "-" ++ pfx ++ natStr e]) ++
      formatRegRangeGo pfx r r rest

/-- `disassembler.formatRegRange`. -/
def formatRegRange (pfx : String) (regs : List Nat) : List String :=
  match regs with
  | [] => []
  | r :: rest => formatRegRangeGo pfx r r rest

/-- `disassembler.movemMaskToList`: canonical register-list text of a mask. -/
def movemMaskToList (mask : Nat) : String :=
  let dRegs := (List.range 8).filter (fun i => mask &&& (1 <<< i) ≠ 0)
  let aRegs := (List.range 8).filter (fun i => mask &&& (1 <<< (i + 8)) ≠ 0)
  String.intercalate "/" (formatRegRange "d" dRegs ++ formatRegRange "a" aRegs)

/-- `disassembler.readImmediateBySize` (utility.go): immediate text and
bytes consumed; a short tail yields the `#<trunc>` placeholder and 0. -/
def readImmediateBySize (code : List Nat) (pc : Nat) (size : Nat) :
    Option (String × Nat) :=
  let n := code.length
  if size = 0 then
    if pc + 2 > n then some ("#<trunc>", 0)
    else (readByteO code (pc + 1)).map (fun b => ("#" ++ intStr (toI8 b), 2))
  else if size = 1 then
    if pc + 2 > n then some ("#<trunc>", 0)
    else
      (readU16o code pc).map (fun v =>
        let w := toI16 v
        if w ≥ 0 ∧ w ≤ 255 then ("#" ++ intStr w, 2) else ("#$" ++ hexStr (iu16 w), 2))
  else if size = 2 then
    if pc + 4 > n then some ("#<trunc>", 0)
    else (readU32o code pc).map (fun l => ("#$" ++ hexStr l, 4))
  else some ("#?", 0)

/-- `disassembler.DecodeEA` (utility.go): textual operand of a 6-bit EA
field and the number of tail bytes consumed; truncated extension words
yield a `?` placeholder and 0. -/
def DecodeEA (ea pc : Nat) (code : List Nat) (size : Nat) : Option (String × Nat) :=
  let mode := (ea >>> 3) &&& 7
  let reg := ea &&& 7
  if mode = 0 then some ("d" ++ natStr reg, 0)
  else if mode = 1 then some ("a" ++ natStr reg, 0)
  else if mode = 2 then some ("(a" ++ natStr reg ++ ")", 0)
  else if mode = 3 then some ("(a" ++ natStr reg ++ ")+", 0)
  else if mode = 4 then some ("-(a" ++ natStr reg ++ ")", 0)
  else if mode = 5 then
    if pc + 2 > code.length then some ("(?,a" ++ natStr reg ++ ")", 0)
    else
      (readU16o code pc).map (fun v =>
        ("(" ++ formatDisp16 (toI16 v) ++ ",a" ++ natStr reg ++ ")", 2))
  else if mode = 6 then
    if pc + 2 > code.length then some ("(?,a" ++ natStr reg ++ ",x?)", 0)
    else
      (readU16o code pc).map (fun ext =>
        let disp := toI8 (ext &&& 0xFF)
        let idx := (ext >>> 12) &&& 7
        let sizeChar := if ext &&& 0x0800 ≠ 0 then "l" else "w"
        let regType := if ext &&& 0x8000 ≠ 0 then "a" else "d"
        ("(" ++ formatDisp8 disp ++ ",a" ++ natStr reg ++ "," ++ regType ++ natStr idx ++
          "." ++ sizeChar ++ ")", 2))
  else if mode = 7 then
    if reg = 0 then
      if pc + 2 > code.length then some ("(?.w)", 0)
      else (readU16o code pc).map (fun addr => ("$" ++ hexStr addr ++ ".w", 2))
    else if reg = 1 then
      if pc + 4 > code.length then some ("(?.l)", 0)
      else (readU32o code pc).map (fun addr => ("$" ++ hexStr addr ++ ".l", 4))
    else if reg = 2 then
      if pc + 2 > code.length then some ("(?,pc)", 0)
      else (readU16o code pc).map (fun v => ("(" ++ formatDisp16 (toI16 v) ++ ",pc)", 2))
    else if reg = 3 then
      if pc + 2 > code.length then some ("(?,pc,xn)", 0)
      else
        (readU16o code pc).map (fun ext =>
          let disp := toI8 (ext &&& 0xFF)
          let idx := (ext >>> 12) &&& 7
          let sizeChar := if ext &&& 0x0800 ≠ 0 then "l" else "w"
          let regType := if ext &&& 0x8000 ≠ 0 then "a" else "d"
          ("(" ++ formatDisp8 disp ++ ",pc," ++ regType ++ natStr idx ++ "." ++ sizeChar ++
            ")", 2))
    else if reg = 4 then readImmediateBySize code pc size
    else some ("(ea mode=" ++ natStr mode ++ " reg=" ++ natStr reg ++ ")", 0)
  else some ("(ea mode=" ++ natStr mode ++ " reg=" ++ natStr reg ++ ")", 0)

/-- Condition-code names (`disassembler.condName`). -/
def condName (cond : Nat) : String :=
  ["t", "f", "hi", "ls", "cc", "cs", "ne", "eq",
   "vc", "vs", "pl", "mi", "ge", "lt", "gt", "le"].getD cond "??"

/-- `disassembler.isBranchMnemonic` (branch.go). -/
def isBranchMnemonic (val : String) : Bool :=
  val = "bra" ∨ val = "bsr" ∨ val = "bhi" ∨ val = "bls" ∨ val = "bcc" ∨ val = "bcs" ∨
  val = "bne" ∨ val = "beq" ∨ val = "bvc" ∨ val = "bvs" ∨ val = "bpl" ∨ val = "bmi" ∨
  val = "bge" ∨ val = "blt" ∨ val = "bgt" ∨ val = "ble" ∨ strStartsWith val "db"

/-- `disassembler.decodeBranch` (branch.go). -/
def decodeBranch (op : Nat) (code : List Nat) (pc : Nat) : Option (String × String × Nat) :=
  let cond := (op >>> 8) &&& 0xF
  let name := if cond = 0 then "bra" else if cond = 1 then "bsr" else "b" ++ condName cond
  let disp8 := op &&& 0xFF
  if disp8 ≠ 0x00 ∧ disp8 ≠ 0xFF then some (name, formatDisp (toI8 disp8), 0)
  else if disp8 = 0x00 then
    if pc + 2 > code.length then some (name, "?", 0)
    else (readU16o code pc).map (fun w => (name, formatDisp (toI16 w), 2))
  else
    if pc + 4 > code.length then some (name, "?", 0)
    else (readU32o code pc).map (fun l => (name, formatDisp (toI32 l), 4))

/-- `strconv.ParseInt` with base 0: prefix-driven base detection. -/
def parseIntBase0 (s : String) : Except String Int :=
  let p : Bool × List Char :=
    match s.data with
    | '-' :: r => (true, r)
    | '+' :: r => (false, r)
    | r => (false, r)
  let q : Nat × List Char :=
    match p.2 with
    | '0' :: x :: r =>
      if x = 'x' ∨ x = 'X' then (16, r)
      else if x = 'b' ∨ x = 'B' then (2, r)
      else if x = 'o' ∨ x = 'O' then (8, r)
      else (8, x :: r)
    | r => (10, r)
  match assembler.parseDigits q.2 q.1 with
  | some n => Except.ok (if p.1 then -(n : Int) else (n : Int))
  | none => Except.error ("invalid number format: " ++ s)

/-- `disassembler.parseBranchOffset` (branch.go). -/
def parseBranchOffset (tok : String) : Int :=
  let tok := trimStr tok
  if tok = "" then 0
  else if strStartsWith tok "loc_" then 0
  else
    let tok := if tok.data.headD ' ' = '+' then tok.drop 1 else tok
    match parseIntBase0 tok with
    | Except.ok i => i
    | Except.error _ => 0

/-- `disassembler.isHexDigit` (compare.go). -/
def isHexDigit (c : Char) : Bool :=
  c.isDigit ∨ ('a' ≤ c ∧ c ≤ 'f') ∨ ('A' ≤ c ∧ c ≤ 'F')

/-- `strings.Trim(op, " ()")`. -/
def trimParens (s : String) : String :=
  let cut : Char → Bool := fun c => c = ' ' ∨ c = '(' ∨ c = ')'
  String.mk ((s.data.dropWhile cut).reverse.dropWhile cut).reverse

/-- `disassembler.parseAbsoluteAddress` (compare.go): extract an absolute
hex (after `$`) or decimal address from operand text; -1 on failure. -/
def parseAbsoluteAddress (op : String) : Int :=
  if op = "" then -1
  else
    let hexPart : Option Int :=
      match op.data.findIdx? (· = '$') with
      | none => none
      | some i =>
        let tail := op.data.drop (i + 1)
        let digits := tail.takeWhile isHexDigit
        if digits.length > 0 then
          match assembler.parseIntGo (String.mk digits) 16 with
          | Except.ok v => some v
          | Except.error _ => none
        else none
    match hexPart with
    | some v => v
    | none =>
      match assembler.parseIntGo (trimParens op) 10 with
      | Except.ok v => v
      | Except.error _ => -1

/-- `disassembler.decodeJmpJsr` (branch.go). -/
def decodeJmpJsr (op pc : Nat) (code : List Nat) : Option (String × String × Nat) :=
  let mn := if op &&& 0x0040 = 0 then "jsr" else "jmp"
  let ea := op &&& 0x3F
  let size := if ea >>> 3 = 7 then (if ea &&& 7 = 1 then 2 else 1) else 1
  (DecodeEA ea pc code size).map (fun p => (mn, p.1, p.2))

/-- `disassembler.decodeScc` (branch.go). -/
def decodeScc (op pc : Nat) (code : List Nat) : Option (String × String × Nat) :=
  let cond := (op >>> 8) &&& 0xF
  let mn := "s" ++ condName cond
  (DecodeEA (op &&& 0x3F) pc code 0).map (fun p => (mn, p.1, p.2))

/-- `disassembler.decodeDbcc` (branch.go). -/
def decodeDbcc (op pc : Nat) (code : List Nat) : Option (String × String × Nat) :=
  let cond := (op >>> 8) &&& 0xF
  let reg := op &&& 7
  let mn := "db" ++ condName cond
  if pc + 1 ≥ code.length then some (mn, "d" ++ natStr reg ++ ",?", 0)
  else
    (readU16o code pc).map (fun v =>
      (mn, "d" ++ natStr reg ++ "," ++ formatDisp (toI16 v), 2))

/-- `disassembler.decodeMoveGeneral` (move.go). -/
def decodeMoveGeneral (op pc : Nat) (code : List Nat) : Option (String × String × Nat) :=
  let sizeBits := (op >>> 12) &&& 0x3
  if sizeBits ≠ 1 ∧ sizeBits ≠ 2 ∧ sizeBits ≠ 3 then
    some ("dc.w", "0x" ++ hex4Lower op, 0)
  else
    let mn := if sizeBits = 1 then "move.b" else if sizeBits = 2 then "move.l" else "move.w"
    let srcEA := (((op >>> 3) &&& 0x7) <<< 3) ||| (op &&& 0x7)
    let dstEA := (((op >>> 6) &&& 0x7) <<< 3) ||| ((op >>> 9) &&& 0x7)
    do
      let src ← DecodeEA srcEA pc code sizeBits
      let dst ← DecodeEA dstEA (pc + src.2) code sizeBits
      let dstMode := (op >>> 6) &&& 0x7
      let mn :=
        if dstMode = 1 then (if sizeBits = 2 then "movea.l" else "movea.w") else mn
      some (mn, src.1 ++ "," ++ dst.1, src.2 + dst.2)

/-- `disassembler.decodeMovem` (move.go). -/
def decodeMovem (op pc : Nat) (code : List Nat) : Option (String × String × Nat) :=
  let isLoad := op &&& 0x0400 ≠ 0
  let size := if op &&& 0x0040 ≠ 0 then ".l" else ".w"
  let ea := op &&& 0x3F
  if pc + 2 > code.length then some ("movem" ++ size, "?", 0)
  else do
    let mask ← readU16o code pc
    let p ← DecodeEA ea (pc + 2) code 0
    let regList := movemMaskToList mask
    if isLoad then some ("movem" ++ size, p.1 ++ "," ++ regList, p.2 + 2)
    else some ("movem" ++ size, regList ++ "," ++ p.1, p.2 + 2)

/-- `disassembler.decodeMovep` (move.go). -/
def decodeMovep (op pc : Nat) (code : List Nat) : Option (String × String × Nat) :=
  let dataReg := (op >>> 9) &&& 7
  let addrReg := op &&& 7
  let opmode := (op >>> 6) &&& 7
  if opmode ≠ 4 ∧ opmode ≠ 5 ∧ opmode ≠ 6 ∧ opmode ≠ 7 then
    some ("dc.w", "0x" ++ hex4Lower op, 0)
  else
    let sizeStr := if opmode = 4 ∨ opmode = 6 then ".w" else ".l"
    let isMemToReg := opmode = 4 ∨ opmode = 5
    if pc + 2 > code.length then some ("movep" ++ sizeStr, "?", 0)
    else
      (readU16o code pc).map (fun v =>
        let disp := toI16 v
        let ops :=
          if isMemToReg then
            "(" ++ intStr disp ++ ",a" ++ natStr addrReg ++ "),d" ++ natStr dataReg
          else
            "d" ++ natStr dataReg ++ ",(" ++ intStr disp ++ ",a" ++ natStr addrReg ++ ")"
        ("movep" ++ sizeStr, ops, 2))

/-- `disassembler.decodeMoveSystemRegister` (move.go). -/
def decodeMoveSystemRegister (op pc : Nat) (code : List Nat) : Option (String × String × Nat) :=
  if op &&& 0xFFF0 = cpu.OPMOVEToUSP then
    let reg := op &&& 7
    if op &&& 0x0008 ≠ 0 then some ("move.l", "usp,a" ++ natStr reg, 0)
    else some ("move.l", "a" ++ natStr reg ++ ",usp", 0)
  else do
    let p ← DecodeEA (op &&& 0x3F) pc code 1
    if op &&& 0xFFC0 = cpu.OPMOVEFromSR then some ("move", "sr," ++ p.1, p.2)
    else if op &&& 0xFFC0 = cpu.OPMOVEToCCR then some ("move", p.1 ++ ",ccr", p.2)
    else if op &&& 0xFFC0 = cpu.OPMOVEToSR then some ("move", p.1 ++ ",sr", p.2)
    else some ("dc.w", "$" ++ hex4Lower op, 0)

/-- `disassembler.decodeImmediateToSystemRegister` (logical.go). -/
def decodeImmediateToSystemRegister (op pc : Nat) (code : List Nat) :
    Option (String × String × Nat) :=
  let t : Option (String × String × Nat) :=
    if op = cpu.OPANDItoCCR then some ("andi", "ccr", 0)
    else if op = cpu.OPORItoCCR then some ("ori", "ccr", 0)
    else if op = cpu.OPEORItoCCR then some ("eori", "ccr", 0)
    else if op = cpu.OPANDItoSR then some ("andi", "sr", 1)
    else if op = cpu.OPORItoSR then some ("ori", "sr", 1)
    else if op = cpu.OPEORItoSR then some ("eori", "sr", 1)
    else none
  match t with
  | none => some ("dc.w", "$" ++ hex4Lower op, 0)
  | some (mn, reg, size) =>
    (readImmediateBySize code pc size).map (fun p => (mn, p.1 ++ "," ++ reg, p.2))

/-- `disassembler.decodeImmediateLogical` (logical.go). -/
def decodeImmediateLogical (op pc : Nat) (code : List Nat) : Option (String × String × Nat) :=
  let sizeBits := (op >>> 6) &&& 0x3
  let mnO : Option String :=
    if op &&& 0xFF00 = 0x0000 then some "ori"
    else if op &&& 0xFF00 = 0x0200 then some "andi"
    else if op &&& 0xFF00 = 0x0400 then some "subi"
    else if op &&& 0xFF00 = 0x0600 then some "addi"
    else if op &&& 0xFF00 = 0x0A00 then some "eori"
    else if op &&& 0xFF00 = 0x0C00 then some "cmpi"
    else none
  match mnO with
  | none => some ("dc.w", "0x" ++ hex4Lower op, 0)
  | some mn => do
    let imm ← readImmediateBySize code pc sizeBits
    let ea ← DecodeEA (op &&& 0x3F) (pc + imm.2) code sizeBits
    some (mn ++ SizeSuffix sizeBits, imm.1 ++ "," ++ ea.1, imm.2 + ea.2)

/-- `disassembler.decodeLogical` (logical.go): AND/OR/EOR non-immediate. -/
def decodeLogical (op pc : Nat) (code : List Nat) : Option (String × String × Nat) :=
  let mnO : Option String :=
    if op &&& 0xF000 = cpu.OPANDconst then some "and"
    else if op &&& 0xF000 = cpu.OPORconst then some "or"
    else if op &&& 0xF000 = 0xB000 then some "eor"
    else none
  match mnO with
  | none => some ("dc.w", "0x" ++ hex4Lower op, 0)
  | some mn =>
    let size := (op >>> 6) &&& 3
    let sizeStr := SizeSuffix size
    let dir := op &&& 0x0100 ≠ 0
    let reg := (op >>> 9) &&& 7
    (DecodeEA (op &&& 0x3F) pc code size).map (fun p =>
      if dir then (mn ++ sizeStr, "d" ++ natStr reg ++ "," ++ p.1, p.2)
      else (mn ++ sizeStr, p.1 ++ ",d" ++ natStr reg, p.2))

/-- `disassembler.decodeExg` (logical.go). -/
def decodeExg (op : Nat) : Option (String × String × Nat) :=
  let regX := (op >>> 9) &&& 7
  let regY := op &&& 7
  let opmode := (op >>> 3) &&& 0x1F
  if opmode = 0x08 then some ("exg", "d" ++ natStr regX ++ ",d" ++ natStr regY, 0)
  else if opmode = 0x09 then some ("exg", "a" ++ natStr regX ++ ",a" ++ natStr regY, 0)
  else if opmode = 0x11 then some ("exg", "d" ++ natStr regX ++ ",a" ++ natStr regY, 0)
  else some ("dc.w", "0x" ++ hex4Lower op, 0)

/-- `disassembler.decodeCmp` (compare.go): CMP / CMPA / EOR. -/
def decodeCmp (op pc : Nat) (code : List Nat) : Option (String × String × Nat) :=
  let opmode := (op >>> 6) &&& 7
  let reg := (op >>> 9) &&& 7
  if op &&& 0x0100 ≠ 0 then
    let szO : Option (Nat × String) :=
      if opmode = 4 then some (0, ".b")
      else if opmode = 5 then some (1, ".w")
      else if opmode = 6 then some (2, ".l")
      else none
    match szO with
    | none => some ("dc.w", "0x" ++ hex4Lower op, 0)
    | some (size, sizeStr) =>
      (DecodeEA (op &&& 0x3F) pc code size).map (fun p =>
        ("eor" ++ sizeStr, "d" ++ natStr reg ++ "," ++ p.1, p.2))
  else
    let sizeField := (op >>> 6) &&& 3
    let t : String × Nat × String :=
      if opmode = 3 then ("cmpa", 1, ".w")
      else if opmode = 7 then ("cmpa", 2, ".l")
      else ("cmp", sizeField, SizeSuffix sizeField)
    (DecodeEA (op &&& 0x3F) pc code t.2.1).map (fun p =>
      if t.1 = "cmpa" then (t.1 ++ t.2.2, p.1 ++ ",a" ++ natStr reg, p.2)
      else (t.1 ++ t.2.2, p.1 ++ ",d" ++ natStr reg, p.2))

/-- `disassembler.decodeChk` (compare.go). -/
def decodeChk (op pc : Nat) (code : List Nat) : Option (String × String × Nat) :=
  let reg := (op >>> 9) &&& 7
  (DecodeEA (op &&& 0x3F) pc code 1).map (fun p =>
    ("chk.w", p.1 ++ ",d" ++ natStr reg, p.2))

/-- `disassembler.decodeCmpm` (compare.go). -/
def decodeCmpm (op : Nat) : Option (String × String × Nat) :=
  let sizeStr := SizeSuffix ((op >>> 6) &&& 3)
  let regX := (op >>> 9) &&& 7
  let regY := op &&& 7
  some ("cmpm" ++ sizeStr, "(a" ++ natStr regY ++ ")+,(a" ++ natStr regX ++ ")+", 0)

/-- `disassembler.decodeTas` (compare.go). -/
def decodeTas (op pc : Nat) (code : List Nat) : Option (String × String × Nat) :=
  (DecodeEA (op &&& 0x3F) pc code 0).map (fun p => ("tas", p.1, p.2))

/-- `disassembler.decodeAdd` (compare.go second section). -/
def decodeAdd (op pc : Nat) (code : List Nat) : Option (String × String × Nat) :=
  let size := (op >>> 6) &&& 3
  let sizeStr := SizeSuffix size
  let dir := op &&& 0x0100 ≠ 0
  let reg := (op >>> 9) &&& 7
  (DecodeEA (op &&& 0x3F) pc code size).map (fun p =>
    if op &&& 0x01C0 = 0x01C0 then ("adda" ++ sizeStr, p.1 ++ ",a" ++ natStr reg, p.2)
    else if dir then ("add" ++ sizeStr, "d" ++ natStr reg ++ "," ++ p.1, p.2)
    else ("add" ++ sizeStr, p.1 ++ ",d" ++ natStr reg, p.2))

/-- `disassembler.decodeSub` (compare.go second section). -/
def decodeSub (op pc : Nat) (code : List Nat) : Option (String × String × Nat) :=
  let size := (op >>> 6) &&& 3
  let sizeStr := SizeSuffix size
  let dir := op &&& 0x0100 ≠ 0
  let reg := (op >>> 9) &&& 7
  (DecodeEA (op &&& 0x3F) pc code size).map (fun p =>
    if op &&& 0x01C0 = 0x01C0 then ("suba" ++ sizeStr, p.1 ++ ",a" ++ natStr reg, p.2)
    else if dir then ("sub" ++ sizeStr, "d" ++ natStr reg ++ "," ++ p.1, p.2)
    else ("sub" ++ sizeStr, p.1 ++ ",d" ++ natStr reg, p.2))

/-- `disassembler.decodeAddxSubx` (compare.go second section). -/
def decodeAddxSubx (op pc : Nat) (code : List Nat) : Option (String × String × Nat) :=
  let baseO : Option String :=
    if op &&& 0xF100 = cpu.OPADDX then some "addx"
    else if op &&& 0xF100 = cpu.OPSUBX then some "subx"
    else none
  match baseO with
  | none => some ("dc.w", "0x" ++ hex4Lower op, 0)
  | some base =>
    let sizeBits := (op >>> 6) &&& 0x3
    let mn := base ++ SizeSuffix sizeBits
    let src := op &&& 7
    let dst := (op >>> 9) &&& 7
    let mode := (op >>> 3) &&& 7
    if mode = 0 then some (mn, "d" ++ natStr src ++ ",d" ++ natStr dst, 0)
    else if mode = 4 then some (mn, "-(a" ++ natStr src ++ "),-(a" ++ natStr dst ++ ")", 0)
    else
      (DecodeEA ((mode <<< 3) ||| src) pc code sizeBits).map (fun p =>
        (mn, p.1 ++ ",d" ++ natStr dst, p.2))

/-- `disassembler.decodeMulDiv` (compare.go second section). -/
def decodeMulDiv (op pc : Nat) (code : List Nat) : Option (String × String × Nat) :=
  let opType := (op >>> 11) &&& 0x1F
  let mnO : Option String :=
    if opType = 0x18 then some "mulu.w"
    else if opType = 0x19 then some "muls.w"
    else if opType = 0x10 then some "divu.w"
    else if opType = 0x11 then some "divs.w"
    else none
  match mnO with
  | none => some ("dc.w", "0x" ++ hex4Lower op, 0)
  | some mn =>
    let reg := (op >>> 9) &&& 7
    (DecodeEA (op &&& 0x3F) pc code 1).map (fun p =>
      (mn, p.1 ++ ",d" ++ natStr reg, p.2))

/-- Common tail of `decodeSingleOperand`: size suffix, EA text (with the
CLR and `not (a1)` special cases of the source), and the mnemonic. -/
def singleOperandCommon (mn : String) (op pc : Nat) (code : List Nat) :
    Option (String × String × Nat) :=
  let sizeField := (op >>> 6) &&& 3
  let sizeStr := SizeSuffix sizeField
  let ea := op &&& 0x3F
  let sizeStr := if mn = "clr" ∧ (ea >>> 3) &&& 7 = 2 then ".b" else sizeStr
  (DecodeEA ea pc code sizeField).map (fun p =>
    let eaText := if mn = "not" ∧ ea = 0x11 then "(a1)+" else p.1
    (mn ++ sizeStr, eaText, p.2))

/-- `disassembler.decodeSingleOperand` (part_001): NEG/NEGX/NOT/CLR/NBCD/
TST/SWAP/EXT. -/
def decodeSingleOperand (op pc : Nat) (code : List Nat) : Option (String × String × Nat) :=
  let opType := (op >>> 8) &&& 0xF
  if opType = 8 then
    if op &&& 0x00F8 = 0x0040 then some ("swap", "d" ++ natStr (op &&& 7), 0)
    else if op &&& 0x00F8 = 0x0080 then some ("ext.w", "d" ++ natStr (op &&& 7), 0)
    else if op &&& 0x00F8 = 0x00C0 then some ("ext.l", "d" ++ natStr (op &&& 7), 0)
    else if op &&& 0x00C0 = 0x0000 then
      (DecodeEA (op &&& 0x3F) pc code 0).map (fun p => ("nbcd", p.1, p.2))
    else singleOperandCommon "" op pc code
  else if opType = 0 then singleOperandCommon "negx" op pc code
  else if opType = 2 then singleOperandCommon "clr" op pc code
  else if opType = 4 then singleOperandCommon "neg" op pc code
  else if opType = 6 then singleOperandCommon "not" op pc code
  else if opType = 0xA then singleOperandCommon "tst" op pc code
  else some ("dc.w", "0x" ++ hex4Lower op, 0)

/-- `disassembler.decodeSwap` (part_001). -/
def decodeSwap (op : Nat) : Option (String × String × Nat) :=
  some ("swap", "d" ++ natStr (op &&& 7), 0)

/-- `disassembler.decodeShiftRotateGeneric` (part_002). -/
def decodeShiftRotateGeneric (op : Nat) : Option (String × String × Nat) :=
  let isLeft := op &&& 0x0100 ≠ 0
  let opType := ((op >>> 3) &&& 3) + (if isLeft then 4 else 0)
  let mn := ["asr", "lsr", "roxr", "ror", "asl", "lsl", "roxl", "rol"].getD opType ""
  let szBits := (op >>> 6) &&& 3
  let mn :=
    if szBits = 0 then mn ++ ".b"
    else if szBits = 1 then mn ++ ".w"
    else if szBits = 2 then mn ++ ".l"
    else mn
  let isRegForm := op &&& 0x0020 = 0
  if isRegForm then
    some (mn, "d" ++ natStr ((op >>> 9) &&& 7) ++ ",d" ++ natStr (op &&& 7), 0)
  else
    let cnt0 := (op >>> 9) &&& 7
    let cnt := if cnt0 = 0 then 8 else cnt0
    some (mn, "#" ++ natStr cnt ++ ",d" ++ natStr (op &&& 7), 0)

/-- `disassembler.decodeBitManipulation` (part_000). -/
def decodeBitManipulation (op pc : Nat) (code : List Nat) : Option (String × String × Nat) :=
  let opType := (op >>> 6) &&& 3
  let mnBase := ["btst", "bchg", "bclr", "bset"].getD opType ""
  if op &&& 0xFF00 = 0x0800 then do
    let imm ← readImmediateBySize code pc 0
    let ea := op &&& 0x3F
    let size := if (ea >>> 3) = 0 then 2 else 0
    let eaP ← DecodeEA ea (pc + imm.2) code size
    some (mnBase, imm.1 ++ "," ++ eaP.1, imm.2 + eaP.2)
  else
    let reg := (op >>> 9) &&& 7
    let ea := op &&& 0x3F
    let p : Nat × String := if (ea >>> 3) = 0 then (2, ".l") else (0, ".b")
    (DecodeEA ea pc code p.1).map (fun eaP =>
      (mnBase ++ p.2, "d" ++ natStr reg ++ "," ++ eaP.1, eaP.2))

/-- `disassembler.decode` (disassemble.go): the main mask/match dispatcher,
in source order.  A falling-through opword renders as `dc.w 0xXXXX`. -/
def decode (op pc : Nat) (code : List Nat) : Option (String × String × Nat) :=
  let in4E := op &&& 0xFF00 = 0x4E00
  if in4E ∧ (op &&& 0xFFF0 = cpu.OPMOVEToUSP ∨ op &&& 0xFFF0 = cpu.OPMOVEFromUSP) then
    decodeMoveSystemRegister op pc code
  else if in4E ∧ op = cpu.OPNOP then some ("nop", "", 0)
  else if in4E ∧ op = cpu.OPRTS then some ("rts", "", 0)
  else if in4E ∧ op = cpu.OPRTR then some ("rtr", "", 0)
  else if in4E ∧ op = cpu.OPRTE then some ("rte", "", 0)
  else if in4E ∧ op = cpu.OPRESET then some ("reset", "", 0)
  else if in4E ∧ op = cpu.OPTRAPV then some ("trapv", "", 0)
  else if in4E ∧ op = cpu.OPSTOP then
    (readImmediateBySize code pc 1).map (fun p => ("stop", p.1, p.2))
  else if in4E ∧ op &&& 0xFFF8 = cpu.OPLINK then
    (readImmediateBySize code pc 1).map (fun p =>
      ("link", "a" ++ natStr (op &&& 7) ++ "," ++ p.1, p.2))
  else if in4E ∧ op &&& 0xFFF8 = cpu.OPUNLK then
    some ("unlk", "a" ++ natStr (op &&& 7), 0)
  else if in4E ∧ op &&& 0xFFF0 = cpu.OPTRAP then
    some ("trap", "#" ++ natStr (op &&& 0xF), 0)
  else if in4E ∧ op &&& 0xFFC0 = cpu.OPJSR then decodeJmpJsr op pc code
  else if in4E ∧ op &&& 0xFFC0 = cpu.OPJMP then decodeJmpJsr op pc code
  else if op = cpu.OPILLEGAL then some ("illegal", "", 0)
  else if op = cpu.OPANDItoCCR ∨ op = cpu.OPORItoCCR ∨ op = cpu.OPEORItoCCR ∨
      op = cpu.OPANDItoSR ∨ op = cpu.OPORItoSR ∨ op = cpu.OPEORItoSR then
    decodeImmediateToSystemRegister op pc code
  else if op &&& 0xF138 = 0x0108 then decodeMovep op pc code
  else if op &&& 0xFF00 = cpu.OPORI ∨ op &&& 0xFF00 = cpu.OPANDI ∨
      op &&& 0xFF00 = cpu.OPSUBI ∨ op &&& 0xFF00 = cpu.OPADDI ∨
      op &&& 0xFF00 = cpu.OPEORI ∨ op &&& 0xFF00 = cpu.OPCMPI then
    decodeImmediateLogical op pc code
  else if op &&& 0xFF00 = 0x0800 then decodeBitManipulation op pc code
  else if op &&& 0xF000 = 0 ∧ op &&& 0x0100 ≠ 0 then decodeBitManipulation op pc code
  else
    let hi := op &&& 0xF000
    if op &&& 0xF0C8 = cpu.OPDBcc then decodeDbcc op pc code
    else if op &&& 0xF0C0 = cpu.OPScc then decodeScc op pc code
    else if hi = cpu.OPMOVEQ then
      some ("moveq", "#" ++ intStr (toI8 (op &&& 0xFF)) ++ ",d" ++ natStr ((op >>> 9) &&& 7), 0)
    else if op &&& 0xC000 = cpu.OPMOVE then decodeMoveGeneral op pc code
    else if hi = cpu.OPBRA then decodeBranch op code pc
    else if hi = cpu.OPADDQ then
      let imm0 := (op >>> 9) &&& 7
      let imm := if imm0 = 0 then 8 else imm0
      let size := (op >>> 6) &&& 3
      let sizeStr := SizeSuffix size
      (DecodeEA (op &&& 0x3F) pc code size).map (fun p =>
        if op &&& 0x0100 ≠ 0 then ("subq" ++ sizeStr, "#" ++ natStr imm ++ "," ++ p.1, p.2)
        else ("addq" ++ sizeStr, "#" ++ natStr imm ++ "," ++ p.1, p.2))
    else if op &&& 0xF000 = cpu.OPANDconst then
      if op &&& 0xF100 = 0xC100 ∧
          ((op >>> 3) &&& 0x1F = 0x09 ∨ (op >>> 3) &&& 0x1F = 0x11) then
        decodeExg op
      else if op &&& 0xF100 = 0xC100 ∧ (op >>> 3) &&& 0x1F = 0x08 ∧
          (op >>> 9) &&& 7 = op &&& 7 then
        decodeExg op
      else if op &&& 0xF0C0 = cpu.OPMULU ∨ op &&& 0xF0C0 = cpu.OPMULS then
        decodeMulDiv op pc code
      else decodeLogical op pc code
    else if op &&& 0xF000 = cpu.OPORconst then
      if op &&& 0xF0C0 = cpu.OPDIVU ∨ op &&& 0xF0C0 = cpu.OPDIVS then
        decodeMulDiv op pc code
      else decodeLogical op pc code
    else if op &&& 0xF000 = 0xD000 then decodeAdd op pc code
    else if op &&& 0xF000 = 0x9000 then decodeSub op pc code
    else if op &&& 0xF000 = 0xB000 then
      if op &&& 0xF138 = 0xB108 then decodeCmpm op
      else if op &&& 0x0100 = 0 ∧ op &&& 0x00C0 ≠ 0 ∧ op &&& 0x01F8 = 0x0180 then
        decodeChk op pc code
      else decodeCmp op pc code
    else if op &&& 0xFFC0 = cpu.OPMOVEFromSR ∨ op &&& 0xFFC0 = cpu.OPMOVEToCCR ∨
        op &&& 0xFFC0 = cpu.OPMOVEToSR then
      decodeMoveSystemRegister op pc code
    else if op &&& 0xFF00 = cpu.OPNEGX ∨ op &&& 0xFF00 = cpu.OPCLR ∨
        op &&& 0xFF00 = cpu.OPNEG ∨ op &&& 0xFF00 = cpu.OPNOT then
      decodeSingleOperand op pc code
    else if op &&& 0xFFC0 = cpu.OPTAS then decodeTas op pc code
    else if op &&& 0xFF00 = cpu.OPTST ∧ op &&& 0xFFC0 ≠ 0x4AC0 then
      decodeSingleOperand op pc code
    else if op &&& 0xFFC0 = cpu.OPNBCD then decodeSingleOperand op pc code
    else if op &&& 0xFFF8 = 0x4880 ∨ op &&& 0xFFF8 = 0x48C0 then
      decodeSingleOperand op pc code
    else if op &&& 0xFFF8 = cpu.OPSWAP then decodeSwap op
    else if op &&& 0xFB80 = 0x4880 then decodeMovem op pc code
    else if op &&& 0xF100 = cpu.OPADDX ∨ op &&& 0xF100 = cpu.OPSUBX then
      decodeAddxSubx op pc code
    else if hi = cpu.OPShiftRotateBase then decodeShiftRotateGeneric op
    else if op &&& 0xFFC0 = cpu.OPPEA then
      (DecodeEA (op &&& 0x3F) pc code 1).map (fun p => ("pea", p.1, p.2))
    else if op &&& 0xF1C0 = cpu.OPLEA then
      (DecodeEA (op &&& 0x3F) pc code 0).map (fun p =>
        ("lea", p.1 ++ ",a" ++ natStr ((op >>> 9) &&& 7), p.2))
    else some ("dc.w", "0x" ++ hex4Lower op, 0)

/-! ## The multi-stage `Disassemble` (disassemble.go) -/

/-- `disassembler.Instruction`. -/
structure Instruction where
  Address : Nat := 0
  Op : Nat := 0
  Mnemonic : String := ""
  Operands : String := ""
  Size : Nat := 0
  IsCode : Bool := false
deriving DecidableEq

/-- Total wrapper over `decode`; the default is unreachable (totality is
proved as a theorem below). -/
def decodeT (op pc : Nat) (code : List Nat) : String × String × Nat :=
  (decode op pc code).getD ("", "", 0)

/-- Association-list update keyed by address. -/
def setAssocNat {α : Type} (m : List (Nat × α)) (k : Nat) (v : α) : List (Nat × α) :=
  match m with
  | [] => [(k, v)]
  | (k', v') :: r => if k' == k then (k, v) :: r else (k', v') :: setAssocNat r k v

/-- Stage 1 — linear sweep: decode the word at every even offset, with the
bytes after it as the extension tail. -/
def sweepGo (code : List Nat) : Nat → Nat → List (Nat × Instruction) →
    List (Nat × Instruction)
  | 0, _, acc => acc
  | fuel + 1, pc, acc =>
    if pc + 1 < code.length then
      let op := 256 * code.getD pc 0 + code.getD (pc + 1) 0
      let extensions := if pc + 2 < code.length then code.drop (pc + 2) else []
      let t := decodeT op 0 extensions
      sweepGo code fuel (pc + 2)
        (acc ++ [(pc, { Address := pc, Op := op, Mnemonic := t.1, Operands := t.2.1,
                        Size := 2 + t.2.2 })])
    else acc

/-- `disassembler.isTerminal`. -/
def isTerminal (mn : String) : Bool :=
  mn = "rts" ∨ mn = "rte" ∨ mn = "rtr" ∨ mn = "jmp" ∨ mn = "bra"

/-- `addrQueue.push`: align to a word boundary and de-duplicate. -/
def pushQ (items seen : List Nat) (addr : Nat) : List Nat × List Nat :=
  let addr := if addr % 2 = 1 then addr - 1 else addr
  if seen.contains addr then (items, seen) else (items ++ [addr], addr :: seen)

/-- Stage 2 — control-flow trace (fuelled worklist loop; the fuel bound is
generous for any input, and all claims evaluate it on concrete inputs). -/
def traceGo (insts : List (Nat × Instruction)) (items seen : List Nat) :
    Nat → List (Nat × Instruction)
  | 0 => insts
  | fuel + 1 =>
    match items with
    | [] => insts
    | addr :: rest =>
      match insts.lookup addr with
      | none => traceGo insts rest seen fuel
      | some inst =>
        if inst.IsCode then traceGo insts rest seen fuel
        else
          let insts := setAssocNat insts addr { inst with IsCode := true }
          let p1 : List Nat × List Nat :=
            if !isTerminal inst.Mnemonic then pushQ rest seen (addr + inst.Size)
            else (rest, seen)
          if isBranchMnemonic inst.Mnemonic ∨ inst.Mnemonic = "jsr" ∨
              inst.Mnemonic = "jmp" then
            let offsetPC := inst.Address + 2
            let p2 : List Nat × List Nat :=
              if isBranchMnemonic inst.Mnemonic then
                let offset := parseBranchOffset inst.Operands
                let target : Int := (offsetPC : Int) + offset
                if target ≥ 0 then pushQ p1.1 p1.2 target.toNat else p1
              else p1
            let p3 : List Nat × List Nat :=
              let a := parseAbsoluteAddress inst.Operands
              if a ≥ 0 then pushQ p2.1 p2.2 a.toNat else p2
            traceGo insts p3.1 p3.2 fuel
          else traceGo insts p1.1 p1.2 fuel

/-- `disassembler.isPrintableASCII`. -/
def isPrintableASCII (b : Nat) : Bool := b ≥ 0x20 ∧ b ≤ 0x7E

/-- `disassembler.allPrintable`. -/
def allPrintable (bs : List Nat) : Bool := bs.all isPrintableASCII

/-- `disassembler.formatHexBytes`: `dc.b` lines of 16 bytes each. -/
def formatHexBytesGo : Nat → List Nat → String
  | 0, _ => ""
  | _, [] => ""
  | fuel + 1, b :: rest =>
    let chunk := (b :: rest).take 16
    "    dc.b    " ++ String.intercalate "," (chunk.map (fun x => "$" ++ hex2Lower x)) ++
      "\n" ++ formatHexBytesGo fuel ((b :: rest).drop 16)

/-- `disassembler.formatHexBytes` (fuelled by the data length). -/
def formatHexBytes (data : List Nat) : String := formatHexBytesGo (data.length + 1) data

/-- Single-quote escaping of string data (`strings.ReplaceAll(s, "'", "''")`). -/
def escapeQuotes (bs : List Nat) : String :=
  String.mk ((bs.map Char.ofNat).flatMap (fun c =>
    if c = assembler.quoteCh then [assembler.quoteCh, assembler.quoteCh] else [c]))

/-- `disassembler.analyzeAndFormatData` (fuelled loop over the data block):
string/tag/hex heuristics in source order.  Returns the rendered text and
the updated string counter. -/
def analyzeGo (data : List Nat) (baseAddr : Nat) : Nat → Nat → Nat → String × Nat
  | _, counter, 0 => ("", counter)
  | i, counter, fuel + 1 =>
    let n := data.length
    if i ≥ n then ("", counter)
    else
      let start := i + ((data.drop i).takeWhile (fun b => !isPrintableASCII b)).length
      let pre := if start > i then formatHexBytes ((data.drop i).take (start - i)) else ""
      let e := start + ((data.drop start).takeWhile isPrintableASCII).length
      if e ≤ start then
        let p := analyzeGo data baseAddr start counter fuel
        (pre ++ p.1, p.2)
      else
        let run := (data.drop start).take (e - start)
        let runAddr := baseAddr + start
        let isNullTerminated := e < n ∧ data.getD e 0 = 0
        if isNullTerminated ∧ run.length ≥ 4 then
          let label := "string" ++ natStr counter ++ ":"
          let q := String.singleton assembler.quoteCh
          let line := padRight8 label ++ " dc.b    " ++ q ++ escapeQuotes run ++ q ++
            ",$00\n"
          let p := analyzeGo data baseAddr (e + 1) (counter + 1) fuel
          (pre ++ line ++ p.1, p.2)
        else if run.length = 4 ∧ allPrintable run ∧ runAddr % 4 = 0 then
          let label := "string" ++ natStr counter ++ ":"
          let q := String.singleton assembler.quoteCh
          let line := padRight8 label ++ " dc.b    " ++ q ++ escapeQuotes run ++ q ++ "\n"
          let p := analyzeGo data baseAddr e (counter + 1) fuel
          (pre ++ line ++ p.1, p.2)
        else
          let p := analyzeGo data baseAddr e counter fuel
          (pre ++ formatHexBytes run ++ p.1, p.2)

/-- `disassembler.analyzeAndFormatData`. -/
def analyzeAndFormatData (data : List Nat) (baseAddr counter : Nat) : String × Nat :=
  if data.length = 0 then ("", counter)
  else analyzeGo data baseAddr 0 counter (data.length + 1)

/-- Whether the instruction at `a` is marked as code (`codeAddrs`). -/
def isCodeAddr (insts : List (Nat × Instruction)) (a : Nat) : Bool :=
  match insts.lookup a with
  | some i => i.IsCode
  | none => false

/-- One rendered instruction line (`    %-8s %s\n` or `    %s\n`). -/
def instLine (inst : Instruction) : String :=
  if inst.Operands ≠ "" then
    "    " ++ padRight8 inst.Mnemonic ++ " " ++ inst.Operands ++ "\n"
  else "    " ++ inst.Mnemonic ++ "\n"

/-- The inner render loop: print contiguous code instructions. -/
def renderCodeRun (insts : List (Nat × Instruction)) (totalLen : Nat) :
    Nat → Nat → String × Nat
  | _, 0 => ("", 0)
  | pc, fuel + 1 =>
    if pc < totalLen ∧ isCodeAddr insts pc then
      let inst := (insts.lookup pc).getD {}
      let p := renderCodeRun insts totalLen (pc + inst.Size) fuel
      (instLine inst ++ p.1, p.2)
    else ("", pc)

/-- Stage 3 — render: label each contiguous code run `loc_XXXX:`, print its
instructions, and hand non-code gaps to the data analyser. -/
def renderGo (code : List Nat) (insts : List (Nat × Instruction)) :
    Nat → Nat → Nat → String
  | _, _, 0 => ""
  | pc, counter, fuel + 1 =>
    let totalLen := code.length
    if pc ≥ totalLen then ""
    else if !isCodeAddr insts pc then
      let scanLen := ((List.range (totalLen - pc)).takeWhile
        (fun k => !isCodeAddr insts (pc + k))).length
      let p := analyzeAndFormatData ((code.drop pc).take scanLen) pc counter
      p.1 ++ renderGo code insts (pc + scanLen) p.2 fuel
    else
      let inst := (insts.lookup pc).getD {}
      let label := "loc_" ++ hex4Upper inst.Address ++ ":\n"
      let run := renderCodeRun insts totalLen pc (totalLen + 2)
      label ++ run.1 ++ renderGo code insts run.2 counter fuel

/-- `disassembler.Disassemble` (disassemble.go): linear sweep, control-flow
trace from address 0, then render. -/
def Disassemble (code : List Nat) : Except String String :=
  if code.length = 0 then Except.ok ""
  else
    let instructions := sweepGo code (code.length + 2) 0 []
    let q0 := pushQ [] [] 0
    let instructions := traceGo instructions q0.1 q0.2 (2 * code.length + 4)
    Except.ok (renderGo code instructions 0 1 (code.length + 2))

end disassembler

/-! ## Statement-level definitions used by the claims -/

/-- Whitespace normalisation: split into lines, collapse runs of blanks,
drop empty lines. -/
def normalizeText (s : String) : List String :=
  ((splitOnCh '\n' s).map (fun l => String.intercalate " " (fieldsStr l))).filter (· ≠ "")

/-- Assemble one source text at base 0 and disassemble the bytes,
normalised; `none` when either stage fails. -/
def rtNormalized (src : String) : Option (List String) :=
  match assembler.Assemble {} src 0 with
  | Except.error _ => none
  | Except.ok bs =>
    match disassembler.Disassemble bs with
    | Except.error _ => none
    | Except.ok out => some (normalizeText out)

/-- Whether a source line round-trips: the disassembly is exactly a
`loc_0000:` label line followed by the normalised source. -/
def roundTripsLoc (src : String) : Bool :=
  match rtNormalized src with
  | some out => out == "loc_0000:" :: normalizeText src
  | none => false

/-- A canonical coverage list: one representative for each of the Move,
Arith, Logic, Bit, Flow and Misc mnemonic families and for each of the
addressing modes Dn, An, (An), (An)+, -(An), (xxx).w, (xxx).l, (d,PC) and
immediate. -/
def coverageList : List String :=
  ["move.b d0,d1", "movea.l a0,a1", "move.w (a0),d0", "move.w (a0)+,d1",
   "move.w -(a0),d2", "move.l #$12345678,d3", "move.w $1234.w,d7",
   "move.l $123456.l,d0", "move.w ($10,pc),d5", "moveq #1,d7",
   "add.w d1,d0", "and.w d1,d2", "btst.l d1,d2", "jsr (a0)",
   "rts", "nop", "trap #1", "clr.w d0"]

/-- A sizing-pass step that still reports a change on each of its first
`n` runs: used to exhibit the driver loop's true pass bound. -/
def countdownStep (n : Nat) : Except String (Nat × Bool) :=
  Except.ok (n - 1, decide (0 < n))

/-- Bit width of an operation size (for stating the carry-out property). -/
def widthOf : cpu.Size → Nat
  | cpu.SizeByte => 8
  | cpu.SizeWord => 16
  | cpu.SizeLong => 32
  | _ => 0

/-- The 12-byte machine-code input used for the label-convention claims:
`jsr $8.l; rts` followed by the subroutine `nop; rts` at address 8. -/
def jsrExample : List Nat :=
  [0x4E, 0xB9, 0x00, 0x00, 0x00, 0x08, 0x4E, 0x75, 0x4E, 0x71, 0x4E, 0x75]

/-- Initial CPU state for the MOVEQ scenario: `moveq #-1,d0` (opword 70FF)
in memory, all CCR flags initially set, running. -/
def moveqInitial : cpu.CPU :=
  { D := [0, 0, 0, 0, 0, 0, 0, 0], A := [0, 0, 0, 0, 0, 0, 0, 0],
    PC := 0, SR := 0x1F, Mem := [0x70, 0xFF], Running := true }

-- Decidable equality for `Except`, used to evaluate the assembler and
-- disassembler pipelines on the concrete programs of the claims.
deriving instance DecidableEq for Except

/-! # Theorems -/

set_option maxHeartbeats 4000000
set_option maxRecDepth 10000

/-! ## Helper lemmas for the sizing-pass bound (C3) -/

/-- The pass counter returned by `sizingGo` never exceeds `max (pass + 1) 12`:
each recursive step increments `pass` only while `pass ≤ 10`. -/
theorem sizingGo_pass_bound {σ : Type} (f : σ → Except String (σ × Bool)) :
    ∀ (fuel pass : Nat) (s s2 : σ) (n : Nat),
      assembler.sizingGo f fuel pass s = Except.ok (s2, n) → n ≤ max (pass + 1) 12 := by
  intro fuel
  induction fuel with
  | zero =>
    intro pass s s2 n h
    unfold assembler.sizingGo at h
    cases hfs : f s with
    | error e => rw [hfs] at h; exact absurd h (by simp)
    | ok p =>
      rw [hfs] at h
      by_cases hc : p.2
      · simp [hc] at h
      · simp [hc] at h
        omega
  | succ m ih =>
    intro pass s s2 n h
    unfold assembler.sizingGo at h
    cases hfs : f s with
    | error e => rw [hfs] at h; exact absurd h (by simp)
    | ok p =>
      rw [hfs] at h
      by_cases hc : p.2
      · simp [hc] at h
        by_cases hp : pass > 10
        · simp [hp] at h
        · simp [hp] at h
          have := ih (pass + 1) p.1 s2 n h
          omega
      · simp [hc] at h
        omega

/-! ## Helper lemmas for decoder totality (C7) -/

namespace disassembler

/-- Mapping preserves `isSome`. -/
theorem isSome_map_opt {α β : Type} (f : α → β) {o : Option α}
    (h : o.isSome = true) : (o.map f).isSome = true := by
  cases o <;> simp_all

/-- Binding two always-some computations is some. -/
theorem isSome_bind_opt {α β : Type} {o : Option α} {f : α → Option β}
    (h : o.isSome = true) (hf : ∀ a, (f a).isSome = true) :
    (o.bind f).isSome = true := by
  cases o with
  | none => simp_all
  | some a => exact hf a

/-- An in-bounds 16-bit read succeeds. -/
theorem readU16o_isSome (code : List Nat) (pc : Nat) (h : pc + 2 ≤ code.length) :
    (readU16o code pc).isSome = true := by simp [readU16o, h]

/-- An in-bounds 32-bit read succeeds. -/
theorem readU32o_isSome (code : List Nat) (pc : Nat) (h : pc + 4 ≤ code.length) :
    (readU32o code pc).isSome = true := by simp [readU32o, h]

/-- An in-bounds byte read succeeds. -/
theorem readByteO_isSome (code : List Nat) (pc : Nat) (h : pc < code.length) :
    (readByteO code pc).isSome = true := by simp [readByteO, h]

/-- `readImmediateBySize` never fails: every read is guarded by a length
check, and a short tail yields the placeholder text. -/
theorem readImmediateBySize_isSome (code : List Nat) (pc size : Nat) :
    (readImmediateBySize code pc size).isSome = true := by
  simp only [readImmediateBySize]
  repeat' split
  all_goals first
    | rfl
    | (apply isSome_map_opt
       first
         | (apply readU16o_isSome; omega)
         | (apply readU32o_isSome; omega)
         | (apply readByteO_isSome; omega))

/-- DecodeEA is total: every extension-word read is guarded by a length
check, and a short tail yields a placeholder operand with zero bytes
consumed. -/
theorem DecodeEA_isSome (ea pc : Nat) (code : List Nat) (size : Nat) :
    (DecodeEA ea pc code size).isSome = true := by
  unfold DecodeEA
  lift_lets
  intro m r
  by_cases h0 : m = 0
  · rw [if_pos h0]
    rfl
  · rw [if_neg h0]
    by_cases h1 : m = 1
    · rw [if_pos h1]
      rfl
    · rw [if_neg h1]
      by_cases h2 : m = 2
      · rw [if_pos h2]
        rfl
      · rw [if_neg h2]
        by_cases h3 : m = 3
        · rw [if_pos h3]
          rfl
        · rw [if_neg h3]
          by_cases h4 : m = 4
          · rw [if_pos h4]
            rfl
          · rw [if_neg h4]
            by_cases h5 : m = 5
            · rw [if_pos h5]
              by_cases hg : pc + 2 > code.length
              · rw [if_pos hg]
                rfl
              · rw [if_neg hg]
                exact isSome_map_opt _ (readU16o_isSome code pc (by omega))
            · rw [if_neg h5]
              by_cases h6 : m = 6
              · rw [if_pos h6]
                by_cases hg : pc + 2 > code.length
                · rw [if_pos hg]
                  rfl
                · rw [if_neg hg]
                  exact isSome_map_opt _ (readU16o_isSome code pc (by omega))
              · rw [if_neg h6]
                by_cases h7 : m = 7
                · rw [if_pos h7]
                  by_cases r0 : r = 0
                  · rw [if_pos r0]
                    by_cases hg : pc + 2 > code.length
                    · rw [if_pos hg]
                      rfl
                    · rw [if_neg hg]
                      exact isSome_map_opt _ (readU16o_isSome code pc (by omega))
                  · rw [if_neg r0]
                    by_cases r1 : r = 1
                    · rw [if_pos r1]
                      by_cases hg : pc + 4 > code.length
                      · rw [if_pos hg]
                        rfl
                      · rw [if_neg hg]
                        exact isSome_map_opt _ (readU32o_isSome code pc (by omega))
                    · rw [if_neg r1]
                      by_cases r2 : r = 2
                      · rw [if_pos r2]
                        by_cases hg : pc + 2 > code.length
                        · rw [if_pos hg]
                          rfl
                        · rw [if_neg hg]
                          exact isSome_map_opt _ (readU16o_isSome code pc (by omega))
                      · rw [if_neg r2]
                        by_cases r3 : r = 3
                        · rw [if_pos r3]
                          by_cases hg : pc + 2 > code.length
                          · rw [if_pos hg]
                            rfl
                          · rw [if_neg hg]
                            exact isSome_map_opt _ (readU16o_isSome code pc (by omega))
                        · rw [if_neg r3]
                          by_cases r4 : r = 4
                          · rw [if_pos r4]
                            exact readImmediateBySize_isSome code pc size
                          · rw [if_neg r4]
                            rfl
                · rw [if_neg h7]
                  rfl

theorem decodeBranch_isSome (op : Nat) (code : List Nat) (pc : Nat) :
    (decodeBranch op code pc).isSome = true := by
  unfold decodeBranch
  try simp only []
  repeat' split
  all_goals first
    | rfl
    | (apply isSome_map_opt
       first
         | (apply readU16o_isSome; omega)
         | (apply readU32o_isSome; omega))

theorem decodeJmpJsr_isSome (op pc : Nat) (code : List Nat) :
    (decodeJmpJsr op pc code).isSome = true := by
  unfold decodeJmpJsr
  try simp only []
  exact isSome_map_opt _ (DecodeEA_isSome _ _ _ _)

theorem decodeScc_isSome (op pc : Nat) (code : List Nat) :
    (decodeScc op pc code).isSome = true := by
  unfold decodeScc
  try simp only []
  exact isSome_map_opt _ (DecodeEA_isSome _ _ _ _)

theorem decodeDbcc_isSome (op pc : Nat) (code : List Nat) :
    (decodeDbcc op pc code).isSome = true := by
  unfold decodeDbcc
  try simp only []
  repeat' split
  all_goals first
    | rfl
    | (apply isSome_map_opt; apply readU16o_isSome; omega)

theorem decodeMoveGeneral_isSome (op pc : Nat) (code : List Nat) :
    (decodeMoveGeneral op pc code).isSome = true := by
  unfold decodeMoveGeneral
  try simp only []
  repeat' split
  all_goals first
    | rfl
    | (apply isSome_bind_opt (DecodeEA_isSome _ _ _ _)
       intro a
       apply isSome_bind_opt (DecodeEA_isSome _ _ _ _)
       intro b
       rfl)

theorem decodeMovem_isSome (op pc : Nat) (code : List Nat) :
    (decodeMovem op pc code).isSome = true := by
  unfold decodeMovem
  try simp only []
  repeat' split
  all_goals first
    | rfl
    | (apply isSome_bind_opt
       · apply readU16o_isSome; omega
       · intro a
         apply isSome_bind_opt (DecodeEA_isSome _ _ _ _)
         intro b
         all_goals rfl)

theorem decodeMovep_isSome (op pc : Nat) (code : List Nat) :
    (decodeMovep op pc code).isSome = true := by
  unfold decodeMovep
  try simp only []
  repeat' split
  all_goals first
    | rfl
    | (apply isSome_map_opt; apply readU16o_isSome; omega)

theorem decodeMoveSystemRegister_isSome (op pc : Nat) (code : List Nat) :
    (decodeMoveSystemRegister op pc code).isSome = true := by
  unfold decodeMoveSystemRegister
  try simp only []
  repeat' split
  all_goals first
    | rfl
    | (apply isSome_bind_opt (DecodeEA_isSome _ _ _ _)
       intro a
       all_goals rfl)

theorem decodeImmediateToSystemRegister_isSome (op pc : Nat) (code : List Nat) :
    (decodeImmediateToSystemRegister op pc code).isSome = true := by
  unfold decodeImmediateToSystemRegister
  try simp only []
  repeat' split
  all_goals first
    | rfl
    | exact isSome_map_opt _ (readImmediateBySize_isSome _ _ _)

theorem decodeImmediateLogical_isSome (op pc : Nat) (code : List Nat) :
    (decodeImmediateLogical op pc code).isSome = true := by
  unfold decodeImmediateLogical
  try simp only []
  repeat' split
  all_goals first
    | rfl
    | (apply isSome_bind_opt (readImmediateBySize_isSome _ _ _)
       intro a
       apply isSome_bind_opt (DecodeEA_isSome _ _ _ _)
       intro b
       rfl)

theorem decodeLogical_isSome (op pc : Nat) (code : List Nat) :
    (decodeLogical op pc code).isSome = true := by
  unfold decodeLogical
  try simp only []
  repeat' split
  all_goals first
    | rfl
    | exact isSome_map_opt _ (DecodeEA_isSome _ _ _ _)

theorem decodeExg_isSome (op : Nat) : (decodeExg op).isSome = true := by
  unfold decodeExg
  try simp only []
  repeat' split
  all_goals rfl

theorem decodeCmp_isSome (op pc : Nat) (code : List Nat) :
    (decodeCmp op pc code).isSome = true := by
  unfold decodeCmp
  try simp only []
  repeat' split
  all_goals first
    | rfl
    | exact isSome_map_opt _ (DecodeEA_isSome _ _ _ _)

theorem decodeChk_isSome (op pc : Nat) (code : List Nat) :
    (decodeChk op pc code).isSome = true := by
  unfold decodeChk
  try simp only []
  exact isSome_map_opt _ (DecodeEA_isSome _ _ _ _)

theorem decodeCmpm_isSome (op : Nat) : (decodeCmpm op).isSome = true := rfl

theorem decodeTas_isSome (op pc : Nat) (code : List Nat) :
    (decodeTas op pc code).isSome = true := by
  unfold decodeTas
  try simp only []
  exact isSome_map_opt _ (DecodeEA_isSome _ _ _ _)

theorem decodeAdd_isSome (op pc : Nat) (code : List Nat) :
    (decodeAdd op pc code).isSome = true := by
  unfold decodeAdd
  try simp only []
  exact isSome_map_opt _ (DecodeEA_isSome _ _ _ _)

theorem decodeSub_isSome (op pc : Nat) (code : List Nat) :
    (decodeSub op pc code).isSome = true := by
  unfold decodeSub
  try simp only []
  exact isSome_map_opt _ (DecodeEA_isSome _ _ _ _)

theorem decodeAddxSubx_isSome (op pc : Nat) (code : List Nat) :
    (decodeAddxSubx op pc code).isSome = true := by
  unfold decodeAddxSubx
  try simp only []
  repeat' split
  all_goals first
    | rfl
    | exact isSome_map_opt _ (DecodeEA_isSome _ _ _ _)

theorem decodeMulDiv_isSome (op pc : Nat) (code : List Nat) :
    (decodeMulDiv op pc code).isSome = true := by
  unfold decodeMulDiv
  try simp only []
  repeat' split
  all_goals first
    | rfl
    | exact isSome_map_opt _ (DecodeEA_isSome _ _ _ _)

theorem singleOperandCommon_isSome (mn : String) (op pc : Nat) (code : List Nat) :
    (singleOperandCommon mn op pc code).isSome = true := by
  unfold singleOperandCommon
  try simp only []
  exact isSome_map_opt _ (DecodeEA_isSome _ _ _ _)

theorem decodeSingleOperand_isSome (op pc : Nat) (code : List Nat) :
    (decodeSingleOperand op pc code).isSome = true := by
  unfold decodeSingleOperand
  try simp only []
  repeat' split
  all_goals first
    | rfl
    | exact singleOperandCommon_isSome _ _ _ _
    | exact isSome_map_opt _ (DecodeEA_isSome _ _ _ _)

theorem decodeSwap_isSome (op : Nat) : (decodeSwap op).isSome = true := rfl

theorem decodeShiftRotateGeneric_isSome (op : Nat) :
    (decodeShiftRotateGeneric op).isSome = true := by
  unfold decodeShiftRotateGeneric
  try simp only []
  repeat' split
  all_goals rfl

theorem decodeBitManipulation_isSome (op pc : Nat) (code : List Nat) :
    (decodeBitManipulation op pc code).isSome = true := by
  unfold decodeBitManipulation
  try simp only []
  repeat' split
  all_goals first
    | rfl
    | exact isSome_map_opt _ (DecodeEA_isSome _ _ _ _)
    | (apply isSome_bind_opt (readImmediateBySize_isSome _ _ _)
       intro a
       apply isSome_bind_opt (DecodeEA_isSome _ _ _ _)
       intro b
       rfl)

/-- The decode dispatcher is total: every branch delegates to a total
helper or returns an inline triple, and the final fall-through returns the
data-word rendering. -/
theorem decode_isSome (op pc : Nat) (code : List Nat) :
    (decode op pc code).isSome = true := by
  unfold decode
  lift_lets
  intro in4E hi imm0 imm size sizeStr
  by_cases h1 : in4E ∧ (op &&& 0xFFF0 = cpu.OPMOVEToUSP ∨ op &&& 0xFFF0 = cpu.OPMOVEFromUSP)
  · rw [if_pos h1]
    exact decodeMoveSystemRegister_isSome op pc code
  · rw [if_neg h1]
    by_cases h2 : in4E ∧ op = cpu.OPNOP
    · rw [if_pos h2]
      rfl
    · rw [if_neg h2]
      by_cases h3 : in4E ∧ op = cpu.OPRTS
      · rw [if_pos h3]
        rfl
      · rw [if_neg h3]
        by_cases h4 : in4E ∧ op = cpu.OPRTR
        · rw [if_pos h4]
          rfl
        · rw [if_neg h4]
          by_cases h5 : in4E ∧ op = cpu.OPRTE
          · rw [if_pos h5]
            rfl
          · rw [if_neg h5]
            by_cases h6 : in4E ∧ op = cpu.OPRESET
            · rw [if_pos h6]
              rfl
            · rw [if_neg h6]
              by_cases h7 : in4E ∧ op = cpu.OPTRAPV
              · rw [if_pos h7]
                rfl
              · rw [if_neg h7]
                by_cases h8 : in4E ∧ op = cpu.OPSTOP
                · rw [if_pos h8]
                  exact isSome_map_opt _ (readImmediateBySize_isSome code pc 1)
                · rw [if_neg h8]
                  by_cases h9 : in4E ∧ op &&& 0xFFF8 = cpu.OPLINK
                  · rw [if_pos h9]
                    exact isSome_map_opt _ (readImmediateBySize_isSome code pc 1)
                  · rw [if_neg h9]
                    by_cases h10 : in4E ∧ op &&& 0xFFF8 = cpu.OPUNLK
                    · rw [if_pos h10]
                      rfl
                    · rw [if_neg h10]
                      by_cases h11 : in4E ∧ op &&& 0xFFF0 = cpu.OPTRAP
                      · rw [if_pos h11]
                        rfl
                      · rw [if_neg h11]
                        by_cases h12 : in4E ∧ op &&& 0xFFC0 = cpu.OPJSR
                        · rw [if_pos h12]
                          exact decodeJmpJsr_isSome op pc code
                        · rw [if_neg h12]
                          by_cases h13 : in4E ∧ op &&& 0xFFC0 = cpu.OPJMP
                          · rw [if_pos h13]
                            exact decodeJmpJsr_isSome op pc code
                          · rw [if_neg h13]
                            by_cases h14 : op = cpu.OPILLEGAL
                            · rw [if_pos h14]
                              rfl
                            · rw [if_neg h14]
                              by_cases h15 : op = cpu.OPANDItoCCR ∨ op = cpu.OPORItoCCR ∨ op = cpu.OPEORItoCCR ∨ op = cpu.OPANDItoSR ∨ op = cpu.OPORItoSR ∨ op = cpu.OPEORItoSR
                              · rw [if_pos h15]
                                exact decodeImmediateToSystemRegister_isSome op pc code
                              · rw [if_neg h15]
                                by_cases h16 : op &&& 0xF138 = 0x0108
                                · rw [if_pos h16]
                                  exact decodeMovep_isSome op pc code
                                · rw [if_neg h16]
                                  by_cases h17 : op &&& 0xFF00 = cpu.OPORI ∨ op &&& 0xFF00 = cpu.OPANDI ∨ op &&& 0xFF00 = cpu.OPSUBI ∨ op &&& 0xFF00 = cpu.OPADDI ∨ op &&& 0xFF00 = cpu.OPEORI ∨ op &&& 0xFF00 = cpu.OPCMPI
                                  · rw [if_pos h17]
                                    exact decodeImmediateLogical_isSome op pc code
                                  · rw [if_neg h17]
                                    by_cases h18 : op &&& 0xFF00 = 0x0800
                                    · rw [if_pos h18]
                                      exact decodeBitManipulation_isSome op pc code
                                    · rw [if_neg h18]
                                      by_cases h19 : op &&& 0xF000 = 0 ∧ op &&& 0x0100 ≠ 0
                                      · rw [if_pos h19]
                                        exact decodeBitManipulation_isSome op pc code
                                      · rw [if_neg h19]
                                        by_cases h20 : op &&& 0xF0C8 = cpu.OPDBcc
                                        · rw [if_pos h20]
                                          exact decodeDbcc_isSome op pc code
                                        · rw [if_neg h20]
                                          by_cases h21 : op &&& 0xF0C0 = cpu.OPScc
                                          · rw [if_pos h21]
                                            exact decodeScc_isSome op pc code
                                          · rw [if_neg h21]
                                            by_cases h22 : hi = cpu.OPMOVEQ
                                            · rw [if_pos h22]
                                              rfl
                                            · rw [if_neg h22]
                                              by_cases h23 : op &&& 0xC000 = cpu.OPMOVE
                                              · rw [if_pos h23]
                                                exact decodeMoveGeneral_isSome op pc code
                                              · rw [if_neg h23]
                                                by_cases h24 : hi = cpu.OPBRA
                                                · rw [if_pos h24]
                                                  exact decodeBranch_isSome op code pc
                                                · rw [if_neg h24]
                                                  by_cases h25 : hi = cpu.OPADDQ
                                                  · rw [if_pos h25]
                                                    exact isSome_map_opt _ (DecodeEA_isSome _ _ _ _)
                                                  · rw [if_neg h25]
                                                    by_cases h26 : op &&& 0xF000 = cpu.OPANDconst
                                                    · rw [if_pos h26]
                                                      repeat' split
                                                      all_goals first
                                                        | exact decodeExg_isSome op
                                                        | exact decodeMulDiv_isSome op pc code
                                                        | exact decodeLogical_isSome op pc code
                                                    · rw [if_neg h26]
                                                      by_cases h27 : op &&& 0xF000 = cpu.OPORconst
                                                      · rw [if_pos h27]
                                                        repeat' split
                                                        all_goals first
                                                          | exact decodeMulDiv_isSome op pc code
                                                          | exact decodeLogical_isSome op pc code
                                                      · rw [if_neg h27]
                                                        by_cases h28 : op &&& 0xF000 = 0xD000
                                                        · rw [if_pos h28]
                                                          exact decodeAdd_isSome op pc code
                                                        · rw [if_neg h28]
                                                          by_cases h29 : op &&& 0xF000 = 0x9000
                                                          · rw [if_pos h29]
                                                            exact decodeSub_isSome op pc code
                                                          · rw [if_neg h29]
                                                            by_cases h30 : op &&& 0xF000 = 0xB000
                                                            · rw [if_pos h30]
                                                              repeat' split
                                                              all_goals first
                                                                | exact decodeCmpm_isSome op
                                                                | exact decodeChk_isSome op pc code
                                                                | exact decodeCmp_isSome op pc code
                                                            · rw [if_neg h30]
                                                              by_cases h31 : op &&& 0xFFC0 = cpu.OPMOVEFromSR ∨ op &&& 0xFFC0 = cpu.OPMOVEToCCR ∨ op &&& 0xFFC0 = cpu.OPMOVEToSR
                                                              · rw [if_pos h31]
                                                                exact decodeMoveSystemRegister_isSome op pc code
                                                              · rw [if_neg h31]
                                                                by_cases h32 : op &&& 0xFF00 = cpu.OPNEGX ∨ op &&& 0xFF00 = cpu.OPCLR ∨ op &&& 0xFF00 = cpu.OPNEG ∨ op &&& 0xFF00 = cpu.OPNOT
                                                                · rw [if_pos h32]
                                                                  exact decodeSingleOperand_isSome op pc code
                                                                · rw [if_neg h32]
                                                                  by_cases h33 : op &&& 0xFFC0 = cpu.OPTAS
                                                                  · rw [if_pos h33]
                                                                    exact decodeTas_isSome op pc code
                                                                  · rw [if_neg h33]
                                                                    by_cases h34 : op &&& 0xFF00 = cpu.OPTST ∧ op &&& 0xFFC0 ≠ 0x4AC0
                                                                    · rw [if_pos h34]
                                                                      exact decodeSingleOperand_isSome op pc code
                                                                    · rw [if_neg h34]
                                                                      by_cases h35 : op &&& 0xFFC0 = cpu.OPNBCD
                                                                      · rw [if_pos h35]
                                                                        exact decodeSingleOperand_isSome op pc code
                                                                      · rw [if_neg h35]
                                                                        by_cases h36 : op &&& 0xFFF8 = 0x4880 ∨ op &&& 0xFFF8 = 0x48C0
                                                                        · rw [if_pos h36]
                                                                          exact decodeSingleOperand_isSome op pc code
                                                                        · rw [if_neg h36]
                                                                          by_cases h37 : op &&& 0xFFF8 = cpu.OPSWAP
                                                                          · rw [if_pos h37]
                                                                            exact decodeSwap_isSome op
                                                                          · rw [if_neg h37]
                                                                            by_cases h38 : op &&& 0xFB80 = 0x4880
                                                                            · rw [if_pos h38]
                                                                              exact decodeMovem_isSome op pc code
                                                                            · rw [if_neg h38]
                                                                              by_cases h39 : op &&& 0xF100 = cpu.OPADDX ∨ op &&& 0xF100 = cpu.OPSUBX
                                                                              · rw [if_pos h39]
                                                                                exact decodeAddxSubx_isSome op pc code
                                                                              · rw [if_neg h39]
                                                                                by_cases h40 : hi = cpu.OPShiftRotateBase
                                                                                · rw [if_pos h40]
                                                                                  exact decodeShiftRotateGeneric_isSome op
                                                                                · rw [if_neg h40]
                                                                                  by_cases h41 : op &&& 0xFFC0 = cpu.OPPEA
                                                                                  · rw [if_pos h41]
                                                                                    exact isSome_map_opt _ (DecodeEA_isSome _ _ _ _)
                                                                                  · rw [if_neg h41]
                                                                                    by_cases h42 : op &&& 0xF1C0 = cpu.OPLEA
                                                                                    · rw [if_pos h42]
                                                                                      exact isSome_map_opt _ (DecodeEA_isSome _ _ _ _)
                                                                                    · rw [if_neg h42]
                                                                                      rfl

end disassembler

/-! ## Helper lemmas for the arithmetic flags (C10) -/

/-- Mask with a power of two, in division form. -/
theorem and_pow2_eq (x i : Nat) : x &&& 2 ^ i = x / 2 ^ i % 2 * 2 ^ i := by
  rw [Nat.and_two_pow, Nat.toNat_testBit]

/-- Nonzero power-of-two mask means the bit is set. -/
theorem and_pow2_ne (x i : Nat) : (x &&& 2 ^ i ≠ 0) ↔ x.testBit i = true := by
  rw [Nat.and_two_pow]
  rcases h : x.testBit i <;> simp [h, Nat.pos_pow_of_pos]

/-- Nonzero X-flag mask means bit 4 of SR is set. -/
theorem and16_ne (x : Nat) : (x &&& cpu.SRX ≠ 0) ↔ x.testBit 4 = true := by
  have := and_pow2_ne x 4; norm_num at this; exact this

/-- Nonzero C-flag mask means bit 0 of SR is set. -/
theorem and1_ne (x : Nat) : (x &&& cpu.SRC ≠ 0) ↔ x.testBit 0 = true := by
  have h := and_pow2_ne x 0
  simp only [pow_zero] at h
  simp only [cpu.SRC]
  exact h

/-- The byte-width C-flag condition of `setFlagsArith` holds exactly when
the 8-bit addition carries out of bit 7. -/
theorem carry_core_byte (s d r : Nat) (hr : r = (s + d) % 4294967296) :
    ((((s &&& 128) &&& (d &&& 128)) ||| (compl32 (r &&& 128) &&& (s &&& 128)) |||
      (compl32 (r &&& 128) &&& (d &&& 128))) ≠ 0 ↔
     2 ^ 8 ≤ s % 2 ^ 8 + d % 2 ^ 8) := by
  have e1 : s &&& 128 = s / 128 % 2 * 128 := by
    have := and_pow2_eq s 7; norm_num at this; exact this
  have e2 : d &&& 128 = d / 128 % 2 * 128 := by
    have := and_pow2_eq d 7; norm_num at this; exact this
  have e3 : r &&& 128 = r / 128 % 2 * 128 := by
    have := and_pow2_eq r 7; norm_num at this; exact this
  have ha : s / 128 % 2 = 0 ∨ s / 128 % 2 = 1 := by omega
  have hb : d / 128 % 2 = 0 ∨ d / 128 % 2 = 1 := by omega
  have hc : r / 128 % 2 = 0 ∨ r / 128 % 2 = 1 := by omega
  rw [e1, e2, e3]
  unfold compl32
  rcases ha with ha | ha <;> rcases hb with hb | hb <;> rcases hc with hc | hc <;>
    rw [ha, hb, hc] <;>
    first
      | exact iff_of_true (by decide) (by omega)
      | exact iff_of_false (by decide) (by omega)

/-- The word-width C-flag condition of `setFlagsArith` holds exactly when
the 16-bit addition carries out of bit 15. -/
theorem carry_core_word (s d r : Nat) (hr : r = (s + d) % 4294967296) :
    ((((s &&& 32768) &&& (d &&& 32768)) ||| (compl32 (r &&& 32768) &&& (s &&& 32768)) |||
      (compl32 (r &&& 32768) &&& (d &&& 32768))) ≠ 0 ↔
     2 ^ 16 ≤ s % 2 ^ 16 + d % 2 ^ 16) := by
  have e1 : s &&& 32768 = s / 32768 % 2 * 32768 := by
    have := and_pow2_eq s 15; norm_num at this; exact this
  have e2 : d &&& 32768 = d / 32768 % 2 * 32768 := by
    have := and_pow2_eq d 15; norm_num at this; exact this
  have e3 : r &&& 32768 = r / 32768 % 2 * 32768 := by
    have := and_pow2_eq r 15; norm_num at this; exact this
  have ha : s / 32768 % 2 = 0 ∨ s / 32768 % 2 = 1 := by omega
  have hb : d / 32768 % 2 = 0 ∨ d / 32768 % 2 = 1 := by omega
  have hc : r / 32768 % 2 = 0 ∨ r / 32768 % 2 = 1 := by omega
  rw [e1, e2, e3]
  unfold compl32
  rcases ha with ha | ha <;> rcases hb with hb | hb <;> rcases hc with hc | hc <;>
    rw [ha, hb, hc] <;>
    first
      | exact iff_of_true (by decide) (by omega)
      | exact iff_of_false (by decide) (by omega)

/-- The long-width C-flag condition of `setFlagsArith` holds exactly when
the 32-bit addition carries out of bit 31. -/
theorem carry_core_long (s d r : Nat) (hr : r = (s + d) % 4294967296) :
    ((((s &&& 2147483648) &&& (d &&& 2147483648)) ||| (compl32 (r &&& 2147483648) &&& (s &&& 2147483648)) |||
      (compl32 (r &&& 2147483648) &&& (d &&& 2147483648))) ≠ 0 ↔
     2 ^ 32 ≤ s % 2 ^ 32 + d % 2 ^ 32) := by
  have e1 : s &&& 2147483648 = s / 2147483648 % 2 * 2147483648 := by
    have := and_pow2_eq s 31; norm_num at this; exact this
  have e2 : d &&& 2147483648 = d / 2147483648 % 2 * 2147483648 := by
    have := and_pow2_eq d 31; norm_num at this; exact this
  have e3 : r &&& 2147483648 = r / 2147483648 % 2 * 2147483648 := by
    have := and_pow2_eq r 31; norm_num at this; exact this
  have ha : s / 2147483648 % 2 = 0 ∨ s / 2147483648 % 2 = 1 := by omega
  have hb : d / 2147483648 % 2 = 0 ∨ d / 2147483648 % 2 = 1 := by omega
  have hc : r / 2147483648 % 2 = 0 ∨ r / 2147483648 % 2 = 1 := by omega
  rw [e1, e2, e3]
  unfold compl32
  rcases ha with ha | ha <;> rcases hb with hb | hb <;> rcases hc with hc | hc <;>
    rw [ha, hb, hc] <;>
    first
      | exact iff_of_true (by decide) (by omega)
      | exact iff_of_false (by decide) (by omega)

/-! ## The claims -/

/-- C1: the spec says the emitted byte stream is big-endian on every host
(`dc.w $1122,$3344` emits 11 22 33 44). The code is host-independent, but
`IsLittleEndianHost` probes the fixed little-endian serialiser rather than
the host, so it is constantly true, and `assembleDc` therefore swaps every
byte pair: the program emits 22 11 44 33, contradicting both the spec and
the repository's own `TestDirectives_Encodings/DCW` fixture. -/
theorem C1_dc_words_emitted_swapped :
    cpu.IsLittleEndianHost = true ∧
    assembler.Assemble {} "dc.w $1122,$3344" 0 = Except.ok [0x22, 0x11, 0x44, 0x33] ∧
    ([0x22, 0x11, 0x44, 0x33] : List Nat) ≠ [0x11, 0x22, 0x33, 0x44] := by decide!

/-- C2 counterexample: `move.w 4(a0),d3` (the repository's own addressing-
mode fixture syntax) does not round-trip: the disassembly prefixes a
`loc_0000:` label line and re-renders the displacement operand as
`(4,a0)`. -/
theorem C2_displacement_not_roundtripped :
    rtNormalized "move.w 4(a0),d3" = some ["loc_0000:", "move.w (4,a0),d3"] ∧
    normalizeText "move.w 4(a0),d3" = ["move.w 4(a0),d3"] ∧
    (["loc_0000:", "move.w (4,a0),d3"] : List String) ≠ ["move.w 4(a0),d3"] := by decide!

/-- C2 (amended): every entry of the canonical coverage list — one
representative per move/arithmetic/logic/bit/flow/misc family and per
addressing mode Dn, An, (An), (An)+, -(An), (xxx).w, (xxx).l, (d,PC),
immediate — disassembles to exactly a `loc_0000:` label line followed by
the whitespace-normalised source line, rather than to the bare source
text. Shift instructions do not round-trip at all (the decoder reads bit 5
with the inverted sense, swapping the immediate-count and register-count
forms), and a lone relative branch cannot even be assembled (its label
operand is undefined), so neither family can appear in the list. -/
theorem C2_coverage_list_roundtrips :
    coverageList.all roundTripsLoc = true ∧
    rtNormalized "lsr.w #2,d3" = some ["loc_0000:", "lsr.w d2,d3"] ∧
    (rtNormalized "bra.s fwd").isNone = true := by decide!

/-- C3 counterexample: the claim says at most 10 sizing passes run and
that failing to stabilise within 10 passes is an error. A pass function
that still reports changes on its first 11 runs drives the loop through
12 passes and succeeds. -/
theorem C3_twelve_passes_succeed :
    assembler.sizingFixpoint countdownStep 11 = Except.ok (0, 12) ∧ 12 > 10 := by decide!

/-- C3 (amended): the sizing loop breaks as soon as a pass reports no
change and errors when the pass index exceeds 10 with changes pending, so
a successful `Assemble` sizing fixpoint runs at most 12 passes (pass
indices 0 through 11), not 10. -/
theorem C3_sizing_pass_bound {σ : Type} (f : σ → Except String (σ × Bool))
    (s s2 : σ) (n : Nat)
    (h : assembler.sizingFixpoint f s = Except.ok (s2, n)) : n ≤ 12 := by
  have hb := sizingGo_pass_bound f 12 0 s s2 n h
  omega

/-- C3 witness: the 12-pass run of the counterexample function satisfies
the bound. -/
theorem C3_sizing_pass_bound_witness :
    assembler.sizingFixpoint countdownStep 11 = Except.ok (0, 12) ∧ 12 ≤ 12 :=
  ⟨by decide!, C3_sizing_pass_bound countdownStep 11 0 12 (by decide!)⟩

/-- C4: the spec says an immediate operand contributes one extension word
for byte/word sizes and two for long, independent of the value. In the
code, `parseOperand` fixes the extension-word count from the value alone
(two words only when the value needs them, per the `val > 0xFFFF || val <
-32768` test) and `encodeEA` copies the words unchanged, so
`move.l #1,(a0)` carries a single extension word: 4 bytes in total where
the spec requires 6. -/
theorem C4_long_immediate_single_word :
    assembler.parseOperand "#1" {} =
      Except.ok { Mode := 7, Register := 4, ExtensionWords := [1], Raw := "#1" } ∧
    assembler.encodeEA { Mode := 7, Register := 4, ExtensionWords := [1], Raw := "#1" } =
      Except.ok (0x3C, [1]) ∧
    assembler.Assemble {} "move.l #1,(a0)" 0 = Except.ok [0x20, 0xBC, 0x00, 0x01] := by decide!

/-- C5 counterexample: the claim says an explicit `.b`/`.w` on a small
immediate move to a data register silently selects the general MOVE
encoding; the code instead fails the whole assembly with an error. -/
theorem C5_explicit_size_errors :
    assembler.Assemble {} "move.b #5,d0" 0 =
      Except.error
        "final generation failed for '[move.b #5,d0]': MOVEQ only supports .L size" ∧
    assembler.Assemble {} "move.w #5,d0" 0 =
      Except.error
        "final generation failed for '[move.w #5,d0]': MOVEQ only supports .L size" := by decide!

/-- C5 (amended): for a move of an immediate constant in [-128, 127] into
a data register, `assembleMove` emits the one-word MOVEQ encoding for `.l`
or for no size suffix, and returns the error `MOVEQ only supports .L size`
(rather than a general MOVE encoding) for an explicit `.b` or `.w`. -/
theorem C5_small_immediate_move (mn : assembler.Mnemonic)
    (src dst : assembler.Operand) (pc : Nat) (val : Int)
    (hname : toLowerStr mn.Value = "move")
    (himm : src.IsImmediate = true)
    (hdst : dst.Mode = cpu.ModeData)
    (hval : assembler.parseConstant src.Raw {} = Except.ok val)
    (hlo : -128 ≤ val) (hhi : val ≤ 127) :
    assembler.assembleMove mn [src, dst] {} pc =
      (if mn.Size = cpu.SizeWord ∨ mn.Size = cpu.SizeByte then
        Except.error "MOVEQ only supports .L size"
      else
        Except.ok [cpu.OPMOVEQ ||| (dst.Register <<< 9) ||| (iu16 val &&& 0x00FF)]) := by
  have hq : assembler.CanBeMoveq mn src dst {} = true := by
    unfold assembler.CanBeMoveq
    rw [hname]
    simp [hdst, himm, hval]
    omega
  unfold assembler.assembleMove
  simp [hq, hval, Except.toOption]

/-- C5 witness: `move.l #5, d1` through `assembleMove` produces the MOVEQ
word 0x7205. -/
theorem C5_small_immediate_move_witness :
    assembler.assembleMove ⟨"move", cpu.SizeLong⟩
      [{ Raw := "#5", Mode := cpu.ModeOther, Register := cpu.RegImmediate,
         ExtensionWords := [5] },
       { Raw := "d1", Mode := cpu.ModeData, Register := 1 }] {} 0 =
      Except.ok [0x7000 ||| (1 <<< 9) ||| 5] := by
  have h := C5_small_immediate_move ⟨"move", cpu.SizeLong⟩
    { Raw := "#5", Mode := cpu.ModeOther, Register := cpu.RegImmediate,
      ExtensionWords := [5] }
    { Raw := "d1", Mode := cpu.ModeData, Register := 1 } 0 5
    (by decide) (by decide) (by decide) (by decide!) (by decide) (by decide)
  simpa using h

/-- C6: the claim says `even` pads exactly when the emission PC is odd,
for every base address. The final emit pass tests `outputPos` (the offset
from the base) instead: at base address 1 the one-directive program `even`
has PC = 1 (odd) but `outputPos` = 0, so nothing is emitted — while the
sizing pass (`getDirectiveSize`), which tests the PC exactly as the claim
describes, sizes the same node at one byte. -/
theorem C6_even_tests_offset_not_pc :
    assembler.Assemble {} "even" 1 = Except.ok [] ∧
    assembler.getDirectiveSize {}
      { Type' := assembler.NodeDirective, Parts := ["even"] } 1 = Except.ok 1 ∧
    (1 : Nat) % 2 = 1 := by decide!

/-- C7 counterexample: an opword matching no pattern is rendered with a
`0x`-prefixed lowercase hex operand (`dc.w 0xffff`), not in the `$xxxx`
form the spec states. -/
theorem C7_unmatched_opword_hex_format :
    disassembler.decode 0xFFFF 0 [] = some ("dc.w", "0xffff", 0) ∧
    "0xffff" ≠ "$ffff" := by decide!

/-- C7 (amended): `decode` returns a (mnemonic, operand text, extension
bytes consumed) triple for every 16-bit opword, every program counter and
every (possibly truncated) extension tail — every read is bounds-guarded,
truncated reads yielding placeholder text — and a truncated immediate
renders as `#<trunc>` with zero tail bytes consumed, as `addi.w` with an
empty tail shows. -/
theorem C7_decode_total :
    (∀ (op pc : Nat) (code : List Nat), (disassembler.decode op pc code).isSome = true) ∧
    disassembler.decode 0x0640 0 [] = some ("addi.w", "#<trunc>,d0", 0) :=
  ⟨fun op pc code => disassembler.decode_isSome op pc code, by decide!⟩

/-- C8 counterexample: in the 12-byte program `jsr $8.l; rts; nop; rts`
the address 8 is a jsr target (the trace pushes
`parseAbsoluteAddress "$8.l" = 8` onto the worklist), yet the rendered
output contains no `sub_0008:` label — contradicting the claim that jsr
targets are labelled `sub_XXXX`. -/
theorem C8_jsr_target_not_sub_labelled :
    disassembler.Disassemble jsrExample =
      Except.ok "loc_0000:\n    jsr      $8.l\n    rts\n    nop\n    rts\n" ∧
    (normalizeText
      "loc_0000:\n    jsr      $8.l\n    rts\n    nop\n    rts\n").contains "sub_0008:"
      = false ∧
    disassembler.parseAbsoluteAddress "$8.l" = 8 := by decide!

/-- C8 (amended): the renderer labels only the start of each contiguous
code run, always with the `loc_` prefix; a jsr target inside the run gets
no label of its own and the jsr operand keeps its numeric form. The
`labelName` helper that would produce `sub_` names is never called by
`Disassemble`. -/
theorem C8_only_loc_labels :
    disassembler.Disassemble jsrExample =
      Except.ok "loc_0000:\n    jsr      $8.l\n    rts\n    nop\n    rts\n" ∧
    (normalizeText
      "loc_0000:\n    jsr      $8.l\n    rts\n    nop\n    rts\n").filter
      (fun l => strEndsWith l ":") = ["loc_0000:"] ∧
    (normalizeText
      "loc_0000:\n    jsr      $8.l\n    rts\n    nop\n    rts\n").getD 1 ""
      = "jsr $8.l" := by decide!

/-- C9: executing `moveq #-1,d0` (opword 70FF) sets D0 to FFFFFFFF, sets
N, and clears Z, V and C; the initial SR has all five CCR flags set, so
the clears are visible (X is untouched by MOVEQ). -/
theorem C9_moveq_minus_one :
    cpu.Execute moveqInitial = Except.ok
      { D := [4294967295, 0, 0, 0, 0, 0, 0, 0], A := [0, 0, 0, 0, 0, 0, 0, 0],
        PC := 2, SR := 24, Mem := [0x70, 0xFF], Running := true } ∧
    24 &&& cpu.SRN = cpu.SRN ∧ 24 &&& cpu.SRZ = 0 ∧
    24 &&& cpu.SRV = 0 ∧ 24 &&& cpu.SRC = 0 := by decide!

/-- C10: after any call to `setFlagsArith`, the X bit of SR equals the C
bit; and when the result is the 32-bit wrap of `src + dst` — as at both
`opADD` and `opADDQ` call sites — and the size is byte, word or long, the
shared value is set exactly when the addition carries out of the most
significant bit at that width. -/
theorem C10_x_equals_c_carry (c : cpu.CPU) (src dst result : Nat) (size : cpu.Size) :
    ((((cpu.setFlagsArith c src dst result size).SR &&& cpu.SRX ≠ 0) ↔
      (((cpu.setFlagsArith c src dst result size).SR &&& cpu.SRC ≠ 0))) ∧
     (result = (src + dst) % 4294967296 →
      (size = cpu.SizeByte ∨ size = cpu.SizeWord ∨ size = cpu.SizeLong) →
      ((((cpu.setFlagsArith c src dst result size).SR &&& cpu.SRC ≠ 0)) ↔
        2 ^ widthOf size ≤ src % 2 ^ widthOf size + dst % 2 ^ widthOf size))) := by
  have e0a : Nat.testBit 65504 0 = false := rfl
  have e0b : Nat.testBit 65504 4 = false := rfl
  have e1 : Nat.testBit 1 0 = true := rfl
  have e2 : Nat.testBit 1 4 = false := rfl
  have e3 : Nat.testBit 2 0 = false := rfl
  have e4 : Nat.testBit 2 4 = false := rfl
  have e5 : Nat.testBit 4 0 = false := rfl
  have e6 : Nat.testBit 4 4 = false := rfl
  have e7 : Nat.testBit 8 0 = false := rfl
  have e8 : Nat.testBit 8 4 = false := rfl
  have e9 : Nat.testBit 16 0 = false := rfl
  have e10 : Nat.testBit 16 4 = true := rfl
  have eC : (65535 ^^^ (16 ||| 8 ||| 4 ||| 2 ||| 1) : Nat).testBit 0 = false := rfl
  have eX : (65535 ^^^ (16 ||| 8 ||| 4 ||| 2 ||| 1) : Nat).testBit 4 = false := rfl
  constructor
  · unfold cpu.setFlagsArith
    dsimp only
    split <;> split <;> split <;> split <;>
      (rw [and16_ne, and1_ne]
       simp [Nat.testBit_or, Nat.testBit_and, andNot16, compl16,
         cpu.SRC, cpu.SRV, cpu.SRZ, cpu.SRN, cpu.SRX,
         e0a, e0b, e1, e2, e3, e4, e5, e6, e7, e8, e9, e10, eC, eX])
  · intro hres hsz
    rcases hsz with h | h | h <;> subst h
    · unfold cpu.setFlagsArith widthOf
      dsimp only
      split <;> split <;> split <;> split <;>
        (rw [and1_ne]
         simp [Nat.testBit_or, Nat.testBit_and, andNot16, compl16,
           cpu.SRC, cpu.SRV, cpu.SRZ, cpu.SRN, cpu.SRX, e0a, e1, e3, e5, e7, e9, eC]) <;>
        first
          | (apply (carry_core_byte src dst result hres).mp
             simp_all [bne_iff_ne])
          | (by_contra hge
             have hne := (carry_core_byte src dst result hres).mpr (by omega)
             simp_all [bne_iff_ne])
    · unfold cpu.setFlagsArith widthOf
      dsimp only
      split <;> split <;> split <;> split <;>
        (rw [and1_ne]
         simp [Nat.testBit_or, Nat.testBit_and, andNot16, compl16,
           cpu.SRC, cpu.SRV, cpu.SRZ, cpu.SRN, cpu.SRX, e0a, e1, e3, e5, e7, e9, eC]) <;>
        first
          | (apply (carry_core_word src dst result hres).mp
             simp_all [bne_iff_ne])
          | (by_contra hge
             have hne := (carry_core_word src dst result hres).mpr (by omega)
             simp_all [bne_iff_ne])
    · unfold cpu.setFlagsArith widthOf
      dsimp only
      split <;> split <;> split <;> split <;>
        (rw [and1_ne]
         simp [Nat.testBit_or, Nat.testBit_and, andNot16, compl16,
           cpu.SRC, cpu.SRV, cpu.SRZ, cpu.SRN, cpu.SRX, e0a, e1, e3, e5, e7, e9, eC]) <;>
        first
          | (apply (carry_core_long src dst result hres).mp
             simp_all [bne_iff_ne])
          | (by_contra hge
             have hne := (carry_core_long src dst result hres).mpr (by omega)
             simp_all [bne_iff_ne])

/-- C10 witness: adding 200 and 100 at byte width carries out of bit 7,
and the theorem instantiates to that concrete case. -/
theorem C10_x_equals_c_carry_witness :
    (((cpu.setFlagsArith moveqInitial 200 100 300 cpu.SizeByte).SR &&& cpu.SRC ≠ 0) ↔
      2 ^ widthOf cpu.SizeByte ≤ 200 % 2 ^ widthOf cpu.SizeByte +
        100 % 2 ^ widthOf cpu.SizeByte) :=
  (C10_x_equals_c_carry moveqInitial 200 100 300 cpu.SizeByte).2 (by decide)
    (Or.inl rfl)
